import Mathlib

/-!
EBYTE E220 driver: register codec, mode controller, configuration session.

A shallow embedding of `src/EBYTE_E220.cpp` / `src/EBYTE_E220.h`.

* `uint8_t` members are natural numbers; every place where the C++ code
  narrows an `int` expression to `uint8_t` is an explicit `% 256`.
* `bool` members are `Bool`; a `bool` used in integer arithmetic is
  `Bool.toNat`, an integer stored into a `bool` is `decide (n ≠ 0)`.
* The Arduino environment (serial stream, pins, clock, diagnostic console,
  baud-rate callback) is the explicit state `World`.
-/

/-! ## Constants of `EBYTE_E220.h` -/

/-- The settle delay in milliseconds, `#define PIN_RECOVER 15`. -/
def PIN_RECOVER : Nat := 15

/-- The enum `MODE_TYPE`; `MODE_DEEPSLEEP` has the value of `MODE_PROGRAM`. -/
inductive MODE_TYPE where
  | MODE_NORMAL
  | MODE_WORtransmit
  | MODE_WORreceive
  | MODE_PROGRAM
  | MODE_NOT_SET
  deriving DecidableEq, Repr

/-- The numeric value of a `MODE_TYPE` enumerator. -/
def MODE_TYPE.toNat : MODE_TYPE → Nat
  | .MODE_NORMAL => 0
  | .MODE_WORtransmit => 1
  | .MODE_WORreceive => 2
  | .MODE_PROGRAM => 3
  | .MODE_NOT_SET => 0xFF

/-- The enumerator `MODE_DEEPSLEEP = 3`, the same value as `MODE_PROGRAM`. -/
abbrev MODE_DEEPSLEEP : MODE_TYPE := MODE_TYPE.MODE_PROGRAM

/-- The enum `PROGRAM_COMMAND_Type`; `RETURNED_COMMAND` has the value of
`READ_CONFIGURATION`. -/
inductive PROGRAM_COMMAND_Type where
  | WRITE_CFG_PWR_DWN_SAVE
  | READ_CONFIGURATION
  | WRITE_CFG_PWR_DWN_LOSE
  | WRONG_FORMAT
  deriving DecidableEq, Repr

/-- The numeric value of a `PROGRAM_COMMAND_Type` enumerator. -/
def PROGRAM_COMMAND_Type.toNat : PROGRAM_COMMAND_Type → Nat
  | .WRITE_CFG_PWR_DWN_SAVE => 0xC0
  | .READ_CONFIGURATION => 0xC1
  | .WRITE_CFG_PWR_DWN_LOSE => 0xC2
  | .WRONG_FORMAT => 0xFF

/-- The enumerator `RETURNED_COMMAND = 0xC1`. -/
def RETURNED_COMMAND : Nat := 0xC1

/-- The macro `PERMANENT`. -/
abbrev PERMANENT : PROGRAM_COMMAND_Type := .WRITE_CFG_PWR_DWN_SAVE

/-- The macro `TEMPORARY`. -/
abbrev TEMPORARY : PROGRAM_COMMAND_Type := .WRITE_CFG_PWR_DWN_LOSE

/-- The macro `UDR_9600 = 0b011`. -/
def UDR_9600 : Nat := 0b011

/-- The global table `baudRates` of `EBYTE_E220.cpp`. -/
def baudRates : List Nat := [1200, 2400, 4800, 9600, 19200, 34800, 57600, 115200]

/-! ## Data model -/

/-- The packed struct `ConfigurationType` (nine bytes, `#pragma pack(push,1)`). -/
structure ConfigurationType where
  COMMAND : Nat := 0
  STARTING_ADDRESS : Nat := 0
  LENGTH : Nat := 0
  ADDH : Nat := 0
  ADDL : Nat := 0
  Reg0 : Nat := 0
  Reg1 : Nat := 0
  CHAN : Nat := 0
  Reg3 : Nat := 0
  deriving DecidableEq, Repr

/-- The value of `sizeof(config)`. -/
def sizeof_config : Nat := 9

/-- The memory image of a `ConfigurationType`, in declaration order. -/
def ConfigurationType.toBytes (c : ConfigurationType) : List Nat :=
  [c.COMMAND, c.STARTING_ADDRESS, c.LENGTH, c.ADDH, c.ADDL, c.Reg0, c.Reg1, c.CHAN, c.Reg3]

/-- Storing `bytes` at the start of the memory image of `c`: a field whose
position lies beyond the received bytes keeps its value. -/
def ConfigurationType.store (c : ConfigurationType) (bytes : List Nat) : ConfigurationType :=
  { COMMAND := bytes.getD 0 c.COMMAND
    STARTING_ADDRESS := bytes.getD 1 c.STARTING_ADDRESS
    LENGTH := bytes.getD 2 c.LENGTH
    ADDH := bytes.getD 3 c.ADDH
    ADDL := bytes.getD 4 c.ADDL
    Reg0 := bytes.getD 5 c.Reg0
    Reg1 := bytes.getD 6 c.Reg1
    CHAN := bytes.getD 7 c.CHAN
    Reg3 := bytes.getD 8 c.Reg3 }

/-- The members of class `EBYTE` together with the three file-level globals
`currentBaudRate`, `autoBaud` (and `setBaud`, which is set exactly when
`autoBaud` is). -/
structure EBYTE where
  _M0 : Int := 4
  _M1 : Int := 5
  _AUX : Int := 6
  lastModeSet : MODE_TYPE := .MODE_NOT_SET
  config : ConfigurationType := {}
  _Save : Nat := 0
  _AddressHigh : Nat := 0
  _AddressLow : Nat := 0
  _REG0 : Nat := 0
  _REG1 : Nat := 0
  _REG2 : Nat := 0
  _Channel : Nat := 0
  _REG3 : Nat := 0
  _CryptHi : Nat := 0
  _CryptLo : Nat := 0
  _UARTDataRate : Nat := 0
  _ParityBit : Nat := 0
  _AirDataRate : Nat := 0
  _SubPacketSize : Nat := 0
  _RSSIAmbNoiseEnable : Bool := false
  _TransmitPower : Nat := 0
  _EnableRSSIByte : Bool := true
  _TransmitMode : Nat := 0
  _EnableLBT : Bool := false
  _WORTiming : Nat := 0
  _Address : Nat := 0
  _buf : Nat := 0
  RSSIdata : Nat := 0
  RSSIlastReceive : Nat := 0
  newRSSIdataAvailable : Bool := false
  currentBaudRate : Nat := 0
  autoBaud : Bool := false
  deriving DecidableEq, Repr

/-! ## The Arduino environment

The clock counts milliseconds. It advances in `delay` and while the program
busy-waits; reading the clock, the pins or the receive buffer takes no time.
Bytes travelling towards the microcontroller are on `wire`, each with the
time at which it reaches the receive buffer `rx`. -/

/-- The pin level `HIGH`. -/
abbrev HIGH : Bool := true

/-- The pin level `LOW`. -/
abbrev LOW : Bool := false

/-- The state of everything outside the driver object. -/
structure World where
  /-- The value of `millis()`. -/
  now : Nat := 0
  /-- The bytes buffered by the stream `_s`, oldest first. -/
  rx : List Nat := []
  /-- The bytes still in flight, in line order, each with its arrival time. -/
  wire : List (Nat × Nat) := []
  /-- The payload of every call of `_s->write`, oldest first. -/
  written : List (List Nat) := []
  /-- The byte counts the next calls of `_s->write` will report (a call
  finding this list empty reports the whole payload). -/
  accept : List Nat := []
  /-- The level of output pin `_M0`. -/
  M0 : Bool := LOW
  /-- The level of output pin `_M1`. -/
  M1 : Bool := LOW
  /-- The time intervals `[a, b)` during which the module holds AUX low. -/
  auxBusy : List (Nat × Nat) := []
  /-- The lines printed on the diagnostic console `Serial`. -/
  serial : List String := []
  /-- The arguments of every call of the callback `setBaud`; `none` stands
  for a value read outside the table `baudRates`. -/
  baudCalls : List (Option Nat) := []
  deriving DecidableEq, Repr

namespace World

/-- The bytes whose arrival time has come move from the line to the buffer. -/
def arrive (w : World) : World :=
  { w with
    rx := w.rx ++ (w.wire.takeWhile (fun p => decide (p.1 ≤ w.now))).map Prod.snd
    wire := w.wire.dropWhile (fun p => decide (p.1 ≤ w.now)) }

/-- The Arduino function `delay(ms)`. -/
def delay (ms : Nat) (w : World) : World :=
  ({ w with now := w.now + ms }).arrive

/-- One millisecond passes in a busy-wait loop. -/
def spin (w : World) : World := w.delay 1

/-- The Arduino function `millis()`. -/
def millis (w : World) : Nat := w.now

/-- The stream method `_s->available()`. -/
def available (w : World) : Nat := w.rx.length

/-- The stream method `_s->read()`: the oldest buffered byte, or `-1`. -/
def read (w : World) : Int × World :=
  match w.rx with
  | [] => (-1, w)
  | b :: rest => ((b : Int), { w with rx := rest })

/-- The stream method `_s->write(buffer, size)` on the `size` bytes `payload`:
the call is recorded and the number of bytes accepted is reported. -/
def write (payload : List Nat) (w : World) : Nat × World :=
  match w.accept with
  | [] => (payload.length, { w with written := w.written ++ [payload] })
  | n :: rest =>
    (min n payload.length, { w with written := w.written ++ [payload], accept := rest })

/-- The Arduino stream helper `timedRead` with the default timeout of one
second: the next byte if it is buffered or arrives in less than 1000 ms. -/
def timedRead (w : World) : Option Nat × World :=
  match w.rx with
  | b :: rest => (some b, { w with rx := rest })
  | [] =>
    match w.wire with
    | [] => (none, w.delay 1000)
    | (t, _) :: _ =>
      if t < w.now + 1000 then
        match (({ w with now := max w.now t }).arrive).rx with
        | b :: rest => (some b, { ({ w with now := max w.now t }).arrive with rx := rest })
        | [] => (none, ({ w with now := max w.now t }).arrive)
      else (none, w.delay 1000)

/-- The stream method `_s->readBytes(buffer, length)`: bytes are stored until
`length` of them have come or one of them times out; the bytes stored (a
prefix of the buffer) are returned, their number is the method's result. -/
def readBytes : Nat → World → List Nat × World
  | 0, w => ([], w)
  | n + 1, w =>
    match w.timedRead with
    | (some b, w1) => (b :: (readBytes n w1).1, (readBytes n w1).2)
    | (none, w1) => ([], w1)

/-- The call `digitalReadFast(_AUX)`. -/
def digitalReadFast_AUX (w : World) : Bool :=
  !(w.auxBusy.any (fun p => decide (p.1 ≤ w.now) && decide (w.now < p.2)))

/-- The call `digitalWriteFast(_M0, level)`. -/
def digitalWriteFast_M0 (level : Bool) (w : World) : World := { w with M0 := level }

/-- The call `digitalWriteFast(_M1, level)`. -/
def digitalWriteFast_M1 (level : Bool) (w : World) : World := { w with M1 := level }

/-- The call `Serial.println(line)`. -/
def println (line : String) (w : World) : World := { w with serial := w.serial ++ [line] }

/-- A call of the registered callback `setBaud`. -/
def setBaud (rate : Option Nat) (w : World) : World :=
  { w with baudCalls := w.baudCalls ++ [rate] }

end World

namespace EBYTE

/-! ## Register codec -/

/-- The method `EBYTE::BuildREG0byte`. -/
def BuildREG0byte (d : EBYTE) : EBYTE :=
  { d with _REG0 :=
      (((d._UARTDataRate &&& 0b111) <<< 5) ||| ((d._ParityBit &&& 0b11) <<< 3)
        ||| (d._AirDataRate &&& 0b111)) % 256 }

/-- The method `EBYTE::BuildREG1byte`. -/
def BuildREG1byte (d : EBYTE) : EBYTE :=
  { d with _REG1 :=
      (((d._SubPacketSize &&& 0b11) <<< 6) ||| ((d._RSSIAmbNoiseEnable.toNat &&& 0b1) <<< 5)
        ||| (d._TransmitPower &&& 0b11)) % 256 }

/-- The method `EBYTE::BuildREG3byte`. -/
def BuildREG3byte (d : EBYTE) : EBYTE :=
  { d with _REG3 :=
      (((d._EnableRSSIByte.toNat &&& 0b1) <<< 7) ||| ((d._TransmitMode &&& 0b1) <<< 6)
        ||| ((d._EnableLBT.toNat &&& 0b1) <<< 4) ||| (d._WORTiming &&& 0b111)) % 256 }

/-- The decode block of `EBYTE::ReadParameters` (the assignments from
`_Address = ...` to `_WORTiming = ...`): the sub-fields are re-derived from
`_REG0`, `_REG1`, `_REG3`. The ambient-noise flag is shifted by 4 and then
converted to `bool`. -/
def ReadParameters_unpack (d : EBYTE) : EBYTE :=
  { d with
    _Address := ((d._AddressHigh <<< 8) ||| d._AddressLow) % 65536
    _UARTDataRate := ((d._REG0 &&& 0b11100000) >>> 5) % 256
    _ParityBit := ((d._REG0 &&& 0b00011000) >>> 3) % 256
    _AirDataRate := (d._REG0 &&& 0b00000111) % 256
    _SubPacketSize := ((d._REG1 &&& 0b11000000) >>> 6) % 256
    _RSSIAmbNoiseEnable := decide (((d._REG1 &&& 0b00100000) >>> 4) ≠ 0)
    _TransmitPower := (d._REG1 &&& 0b00000011) % 256
    _EnableRSSIByte := decide (((d._REG3 &&& 0b10000000) >>> 7) ≠ 0)
    _TransmitMode := ((d._REG3 &&& 0b01000000) >>> 6) % 256
    _EnableLBT := decide (((d._REG3 &&& 0b00010000) >>> 4) ≠ 0)
    _WORTiming := (d._REG3 &&& 0b00000111) % 256 }


/-! ## Mode controller -/

/-- The loop `while (digitalReadFast(_AUX) == LOW) { if (t > timeout) break; }`
of `CompleteTask`, `start` being the time at which `t` was reset. -/
def CompleteTask_poll (start timeout : Nat) : Nat → World → World
  | 0, w => w
  | fuel + 1, w =>
    if w.digitalReadFast_AUX = LOW then
      if w.millis - start > timeout then w
      else CompleteTask_poll start timeout fuel w.spin
    else w

/-- The method `EBYTE::CompleteTask`. -/
def CompleteTask (timeout : Nat) (d : EBYTE) (w : World) : World :=
  let w1 :=
    if d._AUX ≠ -1 then CompleteTask_poll w.millis timeout (timeout + 2) w
    else w.delay 1000
  w1.delay 20

/-- The loop of `ClearBuffer`, `amt` being the time at which it started. -/
def ClearBuffer_loop (amt : Nat) : Nat → World → World
  | 0, w => w
  | fuel + 1, w =>
    if w.available ≠ 0 then
      if (w.read.2).millis - amt > 5000 then (w.read.2).println "runaway"
      else ClearBuffer_loop amt fuel w.read.2
    else w

/-- The method `EBYTE::ClearBuffer`. -/
def ClearBuffer (w : World) : World :=
  ClearBuffer_loop w.millis (w.available + 1) w

/-- The pin writes of `SetMode` for the first `if` / `else if` chain. -/
def SetMode_pins (mode : MODE_TYPE) (w : World) : World :=
  if mode = .MODE_NORMAL then (w.digitalWriteFast_M0 LOW).digitalWriteFast_M1 LOW
  else if mode = .MODE_WORtransmit then (w.digitalWriteFast_M0 HIGH).digitalWriteFast_M1 LOW
  else if mode = .MODE_WORreceive then (w.digitalWriteFast_M0 LOW).digitalWriteFast_M1 HIGH
  else w

/-- The second `if (mode == MODE_PROGRAM) ... else ...` of `SetMode`. -/
def SetMode_baud (mode : MODE_TYPE) (d : EBYTE) (w : World) : EBYTE × World :=
  if mode = .MODE_PROGRAM then
    if d.autoBaud && decide (d._UARTDataRate ≠ UDR_9600) then
      ({ d with currentBaudRate := UDR_9600 },
        (((w.digitalWriteFast_M0 HIGH).digitalWriteFast_M1 HIGH).setBaud (some 9600)))
    else (d, (w.digitalWriteFast_M0 HIGH).digitalWriteFast_M1 HIGH)
  else
    if d.autoBaud && decide (d.currentBaudRate ≠ d._UARTDataRate) then
      ({ d with currentBaudRate := d._UARTDataRate }, w.setBaud (baudRates.get? d._UARTDataRate))
    else (d, w)

/-- The method `EBYTE::SetMode`. -/
def SetMode (mode : MODE_TYPE) (d : EBYTE) (w : World) : EBYTE × World :=
  let w1 := SetMode_pins mode (w.delay PIN_RECOVER)
  let dw := SetMode_baud mode d w1
  let w2 := ClearBuffer (dw.2.delay PIN_RECOVER)
  let w3 := CompleteTask 4000 dw.1 w2
  ({ dw.1 with lastModeSet := mode }, w3)

/-! ## Data session -/

/-- The method `EBYTE::SendStruct`; `TheStructure` is the memory the pointer
refers to. The result is the returned `bool` and the state afterwards. -/
def SendStruct (TheStructure : List Nat) (size_ : Nat) (d : EBYTE) (w : World) :
    Bool × EBYTE × World :=
  let r := w.write (TheStructure.take size_)
  let d1 := { d with _buf := r.1 % 256 }
  (decide (d1._buf = size_), d1, CompleteTask 1000 d1 r.2)

/-- The loop `while ((t <= 5) && (_s->available() == 0)) {}` of `GetStruct`. -/
def GetStruct_poll (start : Nat) : Nat → World → World
  | 0, w => w
  | fuel + 1, w =>
    if decide (w.millis - start ≤ 5) && decide (w.available = 0) then
      GetStruct_poll start fuel w.spin
    else w

/-- The `if (_EnableRSSIByte) ...` block of `GetStruct`. -/
def GetStruct_rssi (d : EBYTE) (w : World) : EBYTE × World :=
  if d._EnableRSSIByte then
    let w1 := GetStruct_poll w.millis 7 w
    let d1 := { d with newRSSIdataAvailable := decide (w1.available ≥ 1) }
    if d1.newRSSIdataAvailable then
      ({ d1 with RSSIdata := (w1.read.1 % 256).toNat }, w1.read.2)
    else (d1, w1)
  else (d, w)

/-- The method `EBYTE::GetStruct`. The result is the returned `bool`, the
bytes stored at the start of `TheStructure`, and the state afterwards. -/
def GetStruct (size_ : Nat) (d : EBYTE) (w : World) : Bool × List Nat × EBYTE × World :=
  let r := w.readBytes size_
  let d1 := { d with _buf := r.1.length % 256, newRSSIdataAvailable := false }
  let dw := GetStruct_rssi d1 r.2
  (decide (dw.1._buf = size_), r.1, dw.1, CompleteTask 1000 dw.1 dw.2)

/-! ## Configuration session -/

/-- The nine assignments to `config` at the start of `SaveParameters` and
`ReadParameters`; `command` is the value stored in `config.COMMAND`. -/
def stageConfig (command : Nat) (d : EBYTE) : EBYTE :=
  { d with config :=
      { COMMAND := command
        STARTING_ADDRESS := 0
        LENGTH := 6
        ADDH := d._AddressHigh
        ADDL := d._AddressLow
        Reg0 := d._REG0
        Reg1 := d._REG1
        CHAN := d._Channel
        Reg3 := d._REG3 } }

/-- The loop `while (_s->available() == 0 && t < 5000) {}` of `SaveParameters`. -/
def SaveParameters_wait (start : Nat) : Nat → World → World
  | 0, w => w
  | fuel + 1, w =>
    if decide (w.available = 0) && decide (w.millis - start < 5000) then
      SaveParameters_wait start fuel w.spin
    else w

/-- The first part of `EBYTE::SaveParameters`, up to the end of the wait for
the first byte of the echo. -/
def SaveParameters_send (val : PROGRAM_COMMAND_Type) (d : EBYTE) (w : World) : EBYTE × World :=
  let dw := SetMode .MODE_PROGRAM (stageConfig val.toNat d) w
  let s := SendStruct dw.1.config.toBytes sizeof_config dw.1 (dw.2.delay 5)
  let w1 := if !s.1 then s.2.2.println "Unable to send Config to Tranceiver" else s.2.2
  (s.2.1, SaveParameters_wait w1.millis 5001 w1)

/-- The method `EBYTE::SaveParameters` (it returns `void`). -/
def SaveParameters (val : PROGRAM_COMMAND_Type) (d : EBYTE) (w : World) : EBYTE × World :=
  let dw := SaveParameters_send val d w
  let g := GetStruct sizeof_config dw.1 dw.2
  let d1 := { g.2.2.1 with config := g.2.2.1.config.store g.2.1 }
  let w1 :=
    if !g.1 then g.2.2.2.println "SaveParameters:Unable to Get Config from Tranceiver"
    else g.2.2.2
  SetMode .MODE_NORMAL d1 (CompleteTask 4000 d1 w1)

/-- The first part of `EBYTE::ReadParameters`, up to the `delay(50)` before
the reply is read. -/
def ReadParameters_request (d : EBYTE) (w : World) : EBYTE × World :=
  let dw := SetMode .MODE_PROGRAM (stageConfig PROGRAM_COMMAND_Type.READ_CONFIGURATION.toNat d) w
  let s := SendStruct dw.1.config.toBytes 3 dw.1 dw.2
  let w1 := if !s.1 then s.2.2.println "Unable to send Config to Tranceiver" else s.2.2
  (s.2.1, w1.delay 50)

/-- The assignments `_Save = config.COMMAND; ... _REG3 = config.Reg3;` of
`ReadParameters`. -/
def ReadParameters_copy (d : EBYTE) : EBYTE :=
  { d with
    _Save := d.config.COMMAND
    _AddressHigh := d.config.ADDH
    _AddressLow := d.config.ADDL
    _REG0 := d.config.Reg0
    _REG1 := d.config.Reg1
    _Channel := d.config.CHAN
    _REG3 := d.config.Reg3 }

/-- The second part of `EBYTE::ReadParameters`, from the point where
`readBytes` has returned `reply` in world `w`. -/
def ReadParameters_finish (reply : List Nat) (d : EBYTE) (w : World) : Bool × EBYTE × World :=
  let d1 := { d with config := d.config.store reply }
  let w1 :=
    if reply.length ≠ sizeof_config then
      w.println "ReadParameteres: Unable to Get Config from Tranceiver"
    else w
  let dw := SetMode .MODE_NORMAL (ReadParameters_unpack (ReadParameters_copy d1)) w1
  (decide (dw.1._Save = RETURNED_COMMAND), dw.1, dw.2)

/-- The method `EBYTE::ReadParameters`. -/
def ReadParameters (d : EBYTE) (w : World) : Bool × EBYTE × World :=
  let dw := ReadParameters_request d w
  let r := dw.2.readBytes sizeof_config
  ReadParameters_finish r.1 dw.1 r.2

/-! ## Setters and getters -/

/-- The constructor `EBYTE::EBYTE`: pin numbers are stored in `int8_t` members. -/
def new (PIN_M0 PIN_M1 PIN_AUX : Nat) : EBYTE :=
  { _M0 := if PIN_M0 % 256 < 128 then (PIN_M0 % 256 : Nat) else (PIN_M0 % 256 : Nat) - 256
    _M1 := if PIN_M1 % 256 < 128 then (PIN_M1 % 256 : Nat) else (PIN_M1 % 256 : Nat) - 256
    _AUX := if PIN_AUX % 256 < 128 then (PIN_AUX % 256 : Nat) else (PIN_AUX % 256 : Nat) - 256 }

/-- The method `EBYTE::SetAddressH`. -/
def SetAddressH (val : Nat) (d : EBYTE) : EBYTE := { d with _AddressHigh := val % 256 }

/-- The method `EBYTE::GetAddressH`. -/
def GetAddressH (d : EBYTE) : Nat := d._AddressHigh

/-- The method `EBYTE::SetAddressL`. -/
def SetAddressL (val : Nat) (d : EBYTE) : EBYTE := { d with _AddressLow := val % 256 }

/-- The method `EBYTE::GetAddressL`. -/
def GetAddressL (d : EBYTE) : Nat := d._AddressLow

/-- The method `EBYTE::SetChannel`. -/
def SetChannel (val : Nat) (d : EBYTE) : EBYTE := { d with _Channel := val % 256 }

/-- The method `EBYTE::GetChannel`. -/
def GetChannel (d : EBYTE) : Nat := d._Channel

/-- The method `EBYTE::SetAirDataRate`. -/
def SetAirDataRate (val : Nat) (d : EBYTE) : EBYTE :=
  BuildREG0byte { d with _AirDataRate := val % 256 }

/-- The method `EBYTE::GetAirDataRate`. -/
def GetAirDataRate (d : EBYTE) : Nat := d._AirDataRate

/-- The method `EBYTE::SetSubPacketSize`. -/
def SetSubPacketSize (val : Nat) (d : EBYTE) : EBYTE :=
  BuildREG1byte { d with _SubPacketSize := val % 256 }

/-- The method `EBYTE::GetSubPacketSize`. -/
def GetSubPacketSize (d : EBYTE) : Nat := d._SubPacketSize

/-- The method `EBYTE::SetRSSIAmbientNoiseEnable`. -/
def SetRSSIAmbientNoiseEnable (val : Bool) (d : EBYTE) : EBYTE :=
  BuildREG1byte { d with _RSSIAmbNoiseEnable := val }

/-- The method `EBYTE::GetRSSIAmbientNoiseEnable`. -/
def GetRSSIAmbientNoiseEnable (d : EBYTE) : Bool := d._RSSIAmbNoiseEnable

/-- The method `EBYTE::SetEnableRSSIByte`. -/
def SetEnableRSSIByte (val : Bool) (d : EBYTE) : EBYTE :=
  BuildREG3byte { d with _EnableRSSIByte := val }

/-- The method `EBYTE::GetEnableRSSIByte`. -/
def GetEnableRSSIByte (d : EBYTE) : Bool := d._EnableRSSIByte

/-- The method `EBYTE::SetEnableLBT`. -/
def SetEnableLBT (val : Bool) (d : EBYTE) : EBYTE :=
  BuildREG3byte { d with _EnableLBT := val }

/-- The method `EBYTE::GetEnableLBT`. -/
def GetEnableLBT (d : EBYTE) : Bool := d._EnableLBT

/-- The method `EBYTE::SetParityBit`. -/
def SetParityBit (val : Nat) (d : EBYTE) : EBYTE :=
  BuildREG0byte { d with _ParityBit := val % 256 }

/-- The method `EBYTE::GetParityBit`. -/
def GetParityBit (d : EBYTE) : Nat := d._ParityBit

/-- The method `EBYTE::SetTransmissionMode`. -/
def SetTransmissionMode (val : Nat) (d : EBYTE) : EBYTE :=
  BuildREG3byte { d with _TransmitMode := val % 256 }

/-- The method `EBYTE::GetTransmissionMode`. -/
def GetTransmissionMode (d : EBYTE) : Nat := d._TransmitMode

/-- The method `EBYTE::SetWORTIming`. -/
def SetWORTIming (val : Nat) (d : EBYTE) : EBYTE :=
  BuildREG3byte { d with _WORTiming := val % 256 }

/-- The method `EBYTE::GetWORTIming`. -/
def GetWORTIming (d : EBYTE) : Nat := d._WORTiming

/-- The method `EBYTE::SetTransmitPower`. -/
def SetTransmitPower (val : Nat) (d : EBYTE) : EBYTE :=
  BuildREG1byte { d with _TransmitPower := val % 256 }

/-- The method `EBYTE::GetTransmitPower`. -/
def GetTransmitPower (d : EBYTE) : Nat := d._TransmitPower

/-- The method `EBYTE::SetAddress` on a 16-bit value. -/
def SetAddress (Val : Nat) (d : EBYTE) : EBYTE :=
  { d with
    _AddressHigh := (((Val % 65536) &&& 0xFFFF) >>> 8) % 256
    _AddressLow := ((Val % 65536) &&& 0xFF) % 256 }

/-- The method `EBYTE::GetAddress`. -/
def GetAddress (d : EBYTE) : Nat := ((d._AddressHigh <<< 8) ||| d._AddressLow) % 65536

/-- The method `EBYTE::SetUARTBaudRate`. -/
def SetUARTBaudRate (val : Nat) (d : EBYTE) : EBYTE :=
  BuildREG0byte { d with _UARTDataRate := val % 256 }

/-- The method `EBYTE::GetUARTBaudRate`. -/
def GetUARTBaudRate (d : EBYTE) : Nat := d._UARTDataRate

/-! ## Remaining methods -/

/-- The conversion of an integer to `int16_t`. -/
def toInt16 (x : Int) : Int := (x + 32768) % 65536 - 32768

/-- The method `EBYTE::CalculateChannelNoiseIn_dBm`; it touches no member. -/
def CalculateChannelNoiseIn_dBm (RSSIdta : Nat) : Int :=
  toInt16 (-(256 - toInt16 (RSSIdta : Int)))

/-- The array `transaction` of `GetRSSIValues`. -/
def GetRSSIValues_transaction : List Nat := [0xC0, 0xC1, 0xC2, 0xC3, 0x00, 0x02]

/-- The body of the outer `if` of `GetRSSIValues`: the query is sent and, if
it was sent in full, the five-byte reply is read. -/
def GetRSSIValues_query (d : EBYTE) (w : World) : Bool × EBYTE × World :=
  let s := SendStruct GetRSSIValues_transaction 6 d w
  if s.1 then
    let r := (s.2.2.delay 50).readBytes 5
    let transaction := r.1 ++ GetRSSIValues_transaction.drop r.1.length
    if r.1.length = 5 then
      (true,
        { s.2.1 with RSSIdata := transaction.getD 3 0, RSSIlastReceive := transaction.getD 4 0 },
        CompleteTask 4000 s.2.1 r.2)
    else (false, s.2.1, CompleteTask 4000 s.2.1 r.2)
  else (false, s.2.1, CompleteTask 4000 s.2.1 s.2.2)

/-- The method `EBYTE::GetRSSIValues`. Its condition
`_RSSIAmbNoiseEnable && ((lastModeSet = MODE_NORMAL) || (lastModeSet = MODE_WORtransmit))`
contains two assignments: the first is evaluated when the flag is set and
has the value of `MODE_NORMAL`, the second is evaluated when that value is
zero and has the value of `MODE_WORtransmit`. -/
def GetRSSIValues (d : EBYTE) (w : World) : Bool × EBYTE × World :=
  if d._RSSIAmbNoiseEnable then
    let d1 := { d with lastModeSet := MODE_TYPE.MODE_NORMAL }
    if d1.lastModeSet.toNat ≠ 0 then GetRSSIValues_query d1 w
    else
      let d2 := { d1 with lastModeSet := MODE_TYPE.MODE_WORtransmit }
      if d2.lastModeSet.toNat ≠ 0 then GetRSSIValues_query d2 w
      else (false, d2, w)
  else (false, d, w)

/-- The method `EBYTE::init`; `func` tells whether a callback was passed. The
three `pinMode` calls have no counterpart in `World`. -/
def init (func : Bool) (d : EBYTE) (w : World) : Bool × EBYTE × World :=
  let d0 := { d with autoBaud := false }
  let dw : EBYTE × World :=
    if func then
      ({ d0 with _UARTDataRate := UDR_9600, currentBaudRate := UDR_9600, autoBaud := true },
        w.setBaud (some 9600))
    else (d0, w)
  let m := SetMode .MODE_NORMAL dw.1 dw.2
  ReadParameters m.1 (m.2.delay 100)

end EBYTE

/-! ## Views and sample states used to state and instantiate the theorems -/

namespace EBYTE

/-- The ten sub-field members, in the order of their declaration. -/
def subFields (d : EBYTE) : Nat × Nat × Nat × Nat × Bool × Nat × Bool × Nat × Bool × Nat :=
  (d._UARTDataRate, d._ParityBit, d._AirDataRate, d._SubPacketSize, d._RSSIAmbNoiseEnable,
    d._TransmitPower, d._EnableRSSIByte, d._TransmitMode, d._EnableLBT, d._WORTiming)

end EBYTE

namespace World

/-- The part of the world that the passing of time and the arrival of bytes
leave alone: pins, written bytes, write script, AUX schedule, console lines
and callback calls. -/
def effects (w : World) :
    Bool × Bool × List (List Nat) × List Nat × List (Nat × Nat) × List String
      × List (Option Nat) :=
  (w.M0, w.M1, w.written, w.accept, w.auxBusy, w.serial, w.baudCalls)

/-- The world `w2` comes from `w1` by waiting only: the effects are the same,
the clock has not gone back, and if no byte was on the line none is now and
the receive buffer is the same. -/
def passes (w1 w2 : World) : Prop :=
  w2.effects = w1.effects ∧ w1.now ≤ w2.now ∧ (w1.wire = [] → w2.wire = [] ∧ w2.rx = w1.rx)

end World

/-- Everything a caller can read from the driver object after a call: the
values of the getters and the public data members. -/
structure PublicView where
  addressH : Nat
  addressL : Nat
  address : Nat
  channel : Nat
  uartBaudRate : Nat
  parityBit : Nat
  airDataRate : Nat
  subPacketSize : Nat
  rssiAmbientNoiseEnable : Bool
  transmitPower : Nat
  enableRSSIByte : Bool
  transmissionMode : Nat
  enableLBT : Bool
  worTiming : Nat
  RSSIdata : Nat
  RSSIlastReceive : Nat
  newRSSIdataAvailable : Bool
  deriving DecidableEq, Repr

namespace EBYTE

/-- The caller's view of a driver object. -/
def publicView (d : EBYTE) : PublicView :=
  { addressH := d.GetAddressH
    addressL := d.GetAddressL
    address := d.GetAddress
    channel := d.GetChannel
    uartBaudRate := d.GetUARTBaudRate
    parityBit := d.GetParityBit
    airDataRate := d.GetAirDataRate
    subPacketSize := d.GetSubPacketSize
    rssiAmbientNoiseEnable := d.GetRSSIAmbientNoiseEnable
    transmitPower := d.GetTransmitPower
    enableRSSIByte := d.GetEnableRSSIByte
    transmissionMode := d.GetTransmissionMode
    enableLBT := d.GetEnableLBT
    worTiming := d.GetWORTIming
    RSSIdata := d.RSSIdata
    RSSIlastReceive := d.RSSIlastReceive
    newRSSIdataAvailable := d.newRSSIdataAvailable }

end EBYTE

/-- A driver object on which no method has been called yet. -/
def freshDriver : EBYTE := {}

/-- A staged configuration: 115200 baud, 8E1, air rate 19200, 32-byte
packets, ambient noise on, power level 1, RSSI byte on, fixed mode, LBT off,
WOR timing 6, address 0x12 0x34, channel 23. -/
def sampleDriver : EBYTE :=
  { _UARTDataRate := 7, _ParityBit := 2, _AirDataRate := 5, _SubPacketSize := 3,
    _RSSIAmbNoiseEnable := true, _TransmitPower := 1, _EnableRSSIByte := true,
    _TransmitMode := 1, _EnableLBT := false, _WORTiming := 6,
    _AddressHigh := 0x12, _AddressLow := 0x34, _Channel := 23,
    _REG0 := 0xF5, _REG1 := 0xE1, _REG3 := 0xC6 }

/-- A driver object that holds the three register bytes packed from the sample
configuration, `0xF5`, `0xE1`, `0xC6`, while every one of its sub-field
members has another value than in the sample configuration. -/
def packedOnlyDriver : EBYTE :=
  { _REG0 := 0xF5, _REG1 := 0xE1, _REG3 := 0xC6,
    _UARTDataRate := 0, _ParityBit := 0, _AirDataRate := 0, _SubPacketSize := 0,
    _RSSIAmbNoiseEnable := false, _TransmitPower := 0, _EnableRSSIByte := false,
    _TransmitMode := 0, _EnableLBT := true, _WORTiming := 0 }

/-- A transport with three stale bytes in its receive buffer, nothing on the
line, and an idle module (AUX high). -/
def garbageWorld : World := { now := 1000, rx := [0xDE, 0xAD, 0xBE] }

/-- A transport on which nothing ever arrives: empty buffer, empty line, idle
module. -/
def quietWorld : World := {}

/-- A transport on which the module answers the read request with the frame
`C1 00 06 12 34 F5 E1 17 C6`, arriving 60 ms after the start. -/
def replyWorld : World :=
  { wire := [(60, 0xC1), (60, 0x00), (60, 0x06), (60, 0x12), (60, 0x34), (60, 0xF5),
      (60, 0xE1), (60, 0x17), (60, 0xC6)] }

/-- A transport on which the module echoes only the first three bytes of a
configuration frame, 60 ms after the start. -/
def shortEchoWorld : World := { wire := [(60, 0xC0), (60, 0x00), (60, 0x06)] }

/-- A transport on which the module echoes a whole configuration frame,
60 ms after the start. -/
def fullEchoWorld : World :=
  { wire := [(60, 0xC0), (60, 0x00), (60, 0x06), (60, 0x12), (60, 0x34), (60, 0xF5),
      (60, 0xE1), (60, 0x17), (60, 0xC6)] }

namespace World

/-- The bytes that have not been read yet, buffered or still on the line,
oldest first. -/
def pending (w : World) : List Nat := w.rx ++ w.wire.map Prod.snd

/-- Whether a byte can be read at the time `deadline` at the latest: one is
buffered already, or the next byte on the line arrives by then. -/
def availableBy (deadline : Nat) (w : World) : Bool :=
  match w.rx with
  | _ :: _ => true
  | [] =>
    match w.wire with
    | [] => false
    | (t, _) :: _ => decide (t ≤ deadline)

end World

namespace EBYTE

/-- What a setter of a REG0 sub-field has to leave alone. -/
def frame0 (d : EBYTE) : Nat × Nat × Nat × Nat × Nat :=
  (d._REG1, d._REG3, d._AddressHigh, d._AddressLow, d._Channel)

/-- What a setter of a REG1 sub-field has to leave alone. -/
def frame1 (d : EBYTE) : Nat × Nat × Nat × Nat × Nat :=
  (d._REG0, d._REG3, d._AddressHigh, d._AddressLow, d._Channel)

/-- What a setter of a REG3 sub-field has to leave alone. -/
def frame3 (d : EBYTE) : Nat × Nat × Nat × Nat × Nat :=
  (d._REG0, d._REG1, d._AddressHigh, d._AddressLow, d._Channel)

end EBYTE

/-- A driver with a baud-rate callback registered, configured for UART code
`UDR_38400 = 0b101` while the transport still runs at code `UDR_9600`. -/
def autoBaudDriver : EBYTE := { autoBaud := true, _UARTDataRate := 0b101, currentBaudRate := 0b011 }

/-- A driver with ambient-noise detection enabled whose last mode set is
PROGRAM. -/
def programModeDriver : EBYTE :=
  { _RSSIAmbNoiseEnable := true, lastModeSet := .MODE_PROGRAM }

/-- A driver with ambient-noise detection enabled on which `SetMode` has
never been called. -/
def noiseDriver : EBYTE := { _RSSIAmbNoiseEnable := true }

/-- A transport on which the module answers the RSSI query with
`C1 00 02 55 66`, arriving 30 ms after the start. -/
def rssiReplyWorld : World :=
  { wire := [(30, 0xC1), (30, 0x00), (30, 0x02), (30, 0x55), (30, 0x66)] }

/-- A transport on which the module, configured for 115200 baud, answers the
read request of `init` with `C1 00 06 12 34 F5 E1 17 C6`, arriving 230 ms
after the start. -/
def initReplyWorld : World :=
  { wire := [(230, 0xC1), (230, 0x00), (230, 0x06), (230, 0x12), (230, 0x34), (230, 0xF5),
      (230, 0xE1), (230, 0x17), (230, 0xC6)] }

/-- A transport holding a four-byte payload, with one more byte arriving
3 ms later. -/
def rssiByteWorld : World := { rx := [1, 2, 3, 4], wire := [(3, 0x7A)] }

/-- A transport holding a four-byte payload, the next byte arriving only
after 50 ms. -/
def lateByteWorld : World := { rx := [1, 2, 3, 4], wire := [(50, 0x7A)] }

/-- A driver with the RSSI-byte feature switched off. -/
def noRSSIDriver : EBYTE := { _EnableRSSIByte := false, RSSIdata := 0x11 }

/-- The outcome of `init` with a callback on a fresh driver, the module
answering with its configuration (UART code `UDR_115200`). -/
def afterInit : Bool × EBYTE × World := EBYTE.init true freshDriver initReplyWorld

/-! ## Theorems: register codec -/

set_option maxRecDepth 100000

/-- Packing three in-range fields into REG0 and decoding gives them back. -/
theorem reg0_fields_roundtrip : ∀ u : Fin 8, ∀ p : Fin 4, ∀ a : Fin 8,
    ((((u.val &&& 0b111) <<< 5 ||| (p.val &&& 0b11) <<< 3 ||| (a.val &&& 0b111)) % 256
        &&& 0b11100000) >>> 5) % 256 = u.val ∧
    ((((u.val &&& 0b111) <<< 5 ||| (p.val &&& 0b11) <<< 3 ||| (a.val &&& 0b111)) % 256
        &&& 0b00011000) >>> 3) % 256 = p.val ∧
    (((u.val &&& 0b111) <<< 5 ||| (p.val &&& 0b11) <<< 3 ||| (a.val &&& 0b111)) % 256
        &&& 0b00000111) % 256 = a.val := by
  decide

/-- Packing the in-range fields of REG1 and decoding gives them back. -/
theorem reg1_fields_roundtrip : ∀ s : Fin 4, ∀ n : Bool, ∀ t : Fin 4,
    ((((s.val &&& 0b11) <<< 6 ||| (n.toNat &&& 0b1) <<< 5 ||| (t.val &&& 0b11)) % 256
        &&& 0b11000000) >>> 6) % 256 = s.val ∧
    decide (((((s.val &&& 0b11) <<< 6 ||| (n.toNat &&& 0b1) <<< 5 ||| (t.val &&& 0b11)) % 256
        &&& 0b00100000) >>> 4) ≠ 0) = n ∧
    (((s.val &&& 0b11) <<< 6 ||| (n.toNat &&& 0b1) <<< 5 ||| (t.val &&& 0b11)) % 256
        &&& 0b00000011) % 256 = t.val := by
  decide

/-- Packing the in-range fields of REG3 and decoding gives them back. -/
theorem reg3_fields_roundtrip : ∀ r : Bool, ∀ m : Fin 2, ∀ l : Bool, ∀ t : Fin 8,
    decide (((((r.toNat &&& 0b1) <<< 7 ||| (m.val &&& 0b1) <<< 6 ||| (l.toNat &&& 0b1) <<< 4
        ||| (t.val &&& 0b111)) % 256 &&& 0b10000000) >>> 7) ≠ 0) = r ∧
    ((((r.toNat &&& 0b1) <<< 7 ||| (m.val &&& 0b1) <<< 6 ||| (l.toNat &&& 0b1) <<< 4
        ||| (t.val &&& 0b111)) % 256 &&& 0b01000000) >>> 6) % 256 = m.val ∧
    decide (((((r.toNat &&& 0b1) <<< 7 ||| (m.val &&& 0b1) <<< 6 ||| (l.toNat &&& 0b1) <<< 4
        ||| (t.val &&& 0b111)) % 256 &&& 0b00010000) >>> 4) ≠ 0) = l ∧
    (((r.toNat &&& 0b1) <<< 7 ||| (m.val &&& 0b1) <<< 6 ||| (l.toNat &&& 0b1) <<< 4
        ||| (t.val &&& 0b111)) % 256 &&& 0b00000111) % 256 = t.val := by
  decide

/-- Claim C1: let the sub-fields of `d` fit their bit widths and let `e` be
any driver state whose three register bytes are the ones that
`BuildREG0byte`, `BuildREG1byte`, `BuildREG3byte` pack from `d`, whatever the
sub-field members of `e` hold. Then the decode of `ReadParameters` applied to
`e` produces exactly the sub-fields of `d`, the ambient-noise flag included. -/
theorem C1_pack_unpack_roundtrip (d e : EBYTE)
    (hu : d._UARTDataRate < 8) (hp : d._ParityBit < 4) (ha : d._AirDataRate < 8)
    (hs : d._SubPacketSize < 4) (ht : d._TransmitPower < 4)
    (hm : d._TransmitMode < 2) (hw : d._WORTiming < 8)
    (e0 : e._REG0 = (d.BuildREG0byte)._REG0)
    (e1 : e._REG1 = (d.BuildREG1byte)._REG1)
    (e3 : e._REG3 = (d.BuildREG3byte)._REG3) :
    (e.ReadParameters_unpack).subFields = d.subFields := by
  have h0 := reg0_fields_roundtrip ⟨_, hu⟩ ⟨_, hp⟩ ⟨_, ha⟩
  have h1 := reg1_fields_roundtrip ⟨_, hs⟩ d._RSSIAmbNoiseEnable ⟨_, ht⟩
  have h3 := reg3_fields_roundtrip d._EnableRSSIByte ⟨_, hm⟩ d._EnableLBT ⟨_, hw⟩
  simp only [EBYTE.BuildREG0byte, EBYTE.BuildREG1byte, EBYTE.BuildREG3byte] at e0 e1 e3
  simp only [EBYTE.ReadParameters_unpack, EBYTE.subFields, e0, e1, e3]
  rw [h0.1, h0.2.1, h0.2.2, h1.1, h1.2.1, h1.2.2, h3.1, h3.2.1, h3.2.2.1, h3.2.2.2]

/-- Claim C1 at the sample configuration: its sub-fields are in range, a
driver object holding only its packed bytes (and other sub-field values)
decodes to them, and so does the object in which the bytes were packed. -/
theorem C1_pack_unpack_roundtrip_witness :
    packedOnlyDriver.subFields = (0, 0, 0, 0, false, 0, false, 0, true, 0) ∧
    (packedOnlyDriver.ReadParameters_unpack).subFields
      = (7, 2, 5, 3, true, 1, true, 1, false, 6) ∧
    (sampleDriver.BuildREG0byte.BuildREG1byte.BuildREG3byte.ReadParameters_unpack).subFields
      = (7, 2, 5, 3, true, 1, true, 1, false, 6) :=
  ⟨rfl,
    C1_pack_unpack_roundtrip sampleDriver packedOnlyDriver
      (by decide) (by decide) (by decide) (by decide) (by decide) (by decide) (by decide)
      (by decide) (by decide) (by decide),
    C1_pack_unpack_roundtrip sampleDriver
      (sampleDriver.BuildREG0byte.BuildREG1byte.BuildREG3byte)
      (by decide) (by decide) (by decide) (by decide) (by decide) (by decide) (by decide)
      rfl rfl rfl⟩

/-- A byte survives the mask `0b11100011` exactly when its bits 4..2 are zero. -/
theorem reg1_reserved_iff : ∀ b : Fin 256,
    (b.val &&& 0b11100011 = b.val ↔ b.val / 4 % 8 = 0) := by
  decide

/-- A byte survives the mask `0b11010111` exactly when its bits 5 and 3 are zero. -/
theorem reg3_reserved_iff : ∀ b : Fin 256,
    (b.val &&& 0b11010111 = b.val ↔ (b.val / 32 % 2 = 0 ∧ b.val / 8 % 2 = 0)) := by
  decide

/-- Decoding a byte as REG0 and packing it again gives the byte. -/
theorem reg0_byte_repack : ∀ b : Fin 256,
    ((((((b.val &&& 0b11100000) >>> 5) % 256) &&& 0b111) <<< 5)
      ||| (((((b.val &&& 0b00011000) >>> 3) % 256) &&& 0b11) <<< 3)
      ||| (((b.val &&& 0b00000111) % 256) &&& 0b111)) % 256 = b.val := by
  decide

/-- Decoding a byte as REG1 and packing it again clears bits 4..2. -/
theorem reg1_byte_repack : ∀ b : Fin 256,
    ((((((b.val &&& 0b11000000) >>> 6) % 256) &&& 0b11) <<< 6)
      ||| ((((decide (((b.val &&& 0b00100000) >>> 4) ≠ 0)).toNat) &&& 0b1) <<< 5)
      ||| (((b.val &&& 0b00000011) % 256) &&& 0b11)) % 256 = b.val &&& 0b11100011 := by
  decide

/-- Decoding a byte as REG3 and packing it again clears bits 5 and 3. -/
theorem reg3_byte_repack : ∀ b : Fin 256,
    (((((decide (((b.val &&& 0b10000000) >>> 7) ≠ 0)).toNat) &&& 0b1) <<< 7)
      ||| ((((((b.val &&& 0b01000000) >>> 6) % 256) &&& 0b1)) <<< 6)
      ||| ((((decide (((b.val &&& 0b00010000) >>> 4) ≠ 0)).toNat) &&& 0b1) <<< 4)
      ||| (((b.val &&& 0b00000111) % 256) &&& 0b111)) % 256 = b.val &&& 0b11010111 := by
  decide

/-- Claim C2 as stated fails: the byte `0b00011100` decoded as REG1 and packed
again is `0`, and so is the byte `0b00101000` decoded and packed as REG3. -/
theorem C2_repack_counterexample :
    (({ _REG1 := 0b00011100 } : EBYTE).ReadParameters_unpack.BuildREG1byte)._REG1 = 0 ∧
    (({ _REG3 := 0b00101000 } : EBYTE).ReadParameters_unpack.BuildREG3byte)._REG3 = 0 := by
  decide

/-- Claim C2, amended: for register bytes, decoding and packing again gives
REG0 unchanged, REG1 with its reserved bits 4..2 cleared and REG3 with its
reserved bits 5 and 3 cleared; so the byte comes back exactly when its
reserved bits are zero. -/
theorem C2_repack_clears_reserved (d : EBYTE)
    (h0 : d._REG0 < 256) (h1 : d._REG1 < 256) (h3 : d._REG3 < 256) :
    (d.ReadParameters_unpack.BuildREG0byte)._REG0 = d._REG0 ∧
    (d.ReadParameters_unpack.BuildREG1byte)._REG1 = d._REG1 &&& 0b11100011 ∧
    (d.ReadParameters_unpack.BuildREG3byte)._REG3 = d._REG3 &&& 0b11010111 ∧
    ((d.ReadParameters_unpack.BuildREG1byte)._REG1 = d._REG1 ↔ d._REG1 / 4 % 8 = 0) ∧
    ((d.ReadParameters_unpack.BuildREG3byte)._REG3 = d._REG3 ↔
      (d._REG3 / 32 % 2 = 0 ∧ d._REG3 / 8 % 2 = 0)) := by
  have e0 := reg0_byte_repack ⟨_, h0⟩
  have e1 := reg1_byte_repack ⟨_, h1⟩
  have e3 := reg3_byte_repack ⟨_, h3⟩
  have r1 := reg1_reserved_iff ⟨_, h1⟩
  have r3 := reg3_reserved_iff ⟨_, h3⟩
  simp only [EBYTE.BuildREG0byte, EBYTE.BuildREG1byte, EBYTE.BuildREG3byte,
    EBYTE.ReadParameters_unpack]
  simp only [] at e0 e1 e3 r1 r3
  rw [e0, e1, e3]
  exact ⟨rfl, rfl, rfl, r1, r3⟩

/-- Claim C2, amended, at the sample configuration, whose register bytes have
no reserved bit set. -/
theorem C2_repack_clears_reserved_witness :
    (sampleDriver.ReadParameters_unpack.BuildREG0byte)._REG0 = 0xF5 ∧
    (sampleDriver.ReadParameters_unpack.BuildREG1byte)._REG1 = 0xE1 ∧
    (sampleDriver.ReadParameters_unpack.BuildREG3byte)._REG3 = 0xC6 :=
  have h := C2_repack_clears_reserved sampleDriver (by decide) (by decide) (by decide)
  ⟨h.1, h.2.1, h.2.2.1⟩

/-- The packing expression of REG0 on values reduced to their widths. -/
theorem reg0_layout : ∀ u : Fin 8, ∀ p : Fin 4, ∀ a : Fin 8,
    ((u.val <<< 5) ||| (p.val <<< 3) ||| a.val) % 256 = 32 * u.val + 8 * p.val + a.val := by
  decide

/-- The packing expression of REG1 on values reduced to their widths. -/
theorem reg1_layout : ∀ s : Fin 4, ∀ n : Bool, ∀ t : Fin 4,
    ((s.val <<< 6) ||| ((n.toNat &&& 0b1) <<< 5) ||| t.val) % 256
      = 64 * s.val + 32 * n.toNat + t.val := by
  decide

/-- The packing expression of REG3 on values reduced to their widths. -/
theorem reg3_layout : ∀ r : Bool, ∀ m : Fin 2, ∀ l : Bool, ∀ t : Fin 8,
    (((r.toNat &&& 0b1) <<< 7) ||| (m.val <<< 6) ||| ((l.toNat &&& 0b1) <<< 4) ||| t.val) % 256
      = 128 * r.toNat + 64 * m.val + 16 * l.toNat + t.val := by
  decide

/-- Claim C3: whatever the sub-field values are, the Build functions produce
the documented layout with each value reduced to its width, and the reserved
bits (REG1 bits 4..2, REG3 bits 5 and 3) are zero. -/
theorem C3_packed_layout (d : EBYTE) :
    (d.BuildREG0byte)._REG0
      = 32 * (d._UARTDataRate % 8) + 8 * (d._ParityBit % 4) + d._AirDataRate % 8 ∧
    (d.BuildREG1byte)._REG1
      = 64 * (d._SubPacketSize % 4) + 32 * d._RSSIAmbNoiseEnable.toNat
        + d._TransmitPower % 4 ∧
    (d.BuildREG3byte)._REG3
      = 128 * d._EnableRSSIByte.toNat + 64 * (d._TransmitMode % 2)
        + 16 * d._EnableLBT.toNat + d._WORTiming % 8 ∧
    (d.BuildREG1byte)._REG1 / 4 % 8 = 0 ∧
    (d.BuildREG3byte)._REG3 / 32 % 2 = 0 ∧
    (d.BuildREG3byte)._REG3 / 8 % 2 = 0 := by
  have m3 : ∀ x : Nat, x &&& 0b111 = x % 8 := fun x => Nat.and_pow_two_sub_one_eq_mod x 3
  have m2 : ∀ x : Nat, x &&& 0b11 = x % 4 := fun x => Nat.and_pow_two_sub_one_eq_mod x 2
  have m1 : ∀ x : Nat, x &&& 0b1 = x % 2 := fun x => Nat.and_pow_two_sub_one_eq_mod x 1
  have l8 : ∀ x : Nat, x % 8 < 8 := fun x => Nat.mod_lt x (by decide)
  have l4 : ∀ x : Nat, x % 4 < 4 := fun x => Nat.mod_lt x (by decide)
  have l2 : ∀ x : Nat, x % 2 < 2 := fun x => Nat.mod_lt x (by decide)
  have e0 := reg0_layout ⟨_, l8 d._UARTDataRate⟩ ⟨_, l4 d._ParityBit⟩ ⟨_, l8 d._AirDataRate⟩
  have e1 := reg1_layout ⟨_, l4 d._SubPacketSize⟩ d._RSSIAmbNoiseEnable
    ⟨_, l4 d._TransmitPower⟩
  have e3 := reg3_layout d._EnableRSSIByte ⟨_, l2 d._TransmitMode⟩ d._EnableLBT
    ⟨_, l8 d._WORTiming⟩
  simp only [] at e0 e1 e3
  simp only [EBYTE.BuildREG0byte, EBYTE.BuildREG1byte, EBYTE.BuildREG3byte]
  rw [m3 d._UARTDataRate, m2 d._ParityBit, m3 d._AirDataRate, m2 d._SubPacketSize,
    m2 d._TransmitPower, m1 d._TransmitMode, m3 d._WORTiming, e0, e1, e3]
  have b1 : d._RSSIAmbNoiseEnable.toNat ≤ 1 := Bool.toNat_le _
  have b2 : d._EnableRSSIByte.toNat ≤ 1 := Bool.toNat_le _
  have b3 : d._EnableLBT.toNat ≤ 1 := Bool.toNat_le _
  refine ⟨rfl, rfl, rfl, ?_, ?_, ?_⟩ <;> omega

/-! ## Theorems: the environment and the loops -/

theorem World.passes_refl (w : World) : w.passes w :=
  ⟨rfl, Nat.le_refl _, fun h => ⟨h, rfl⟩⟩

theorem World.passes_trans {a b c : World} (h1 : a.passes b) (h2 : b.passes c) : a.passes c :=
  ⟨h2.1.trans h1.1, Nat.le_trans h1.2.1 h2.2.1,
    fun h => ⟨(h2.2.2 (h1.2.2 h).1).1, ((h2.2.2 (h1.2.2 h).1).2).trans (h1.2.2 h).2⟩⟩

theorem World.delay_passes (ms : Nat) (w : World) : w.passes (w.delay ms) := by
  refine ⟨rfl, Nat.le_add_right _ _, fun h => ?_⟩
  simp [World.delay, World.arrive, h]

theorem World.delay_now (ms : Nat) (w : World) : (w.delay ms).now = w.now + ms := rfl

theorem World.delay_effects (ms : Nat) (w : World) : (w.delay ms).effects = w.effects := rfl

namespace EBYTE

/-- The AUX wait only lets time pass. -/
theorem CompleteTask_poll_passes (start timeout : Nat) :
    ∀ (fuel : Nat) (w : World), w.passes (CompleteTask_poll start timeout fuel w) := by
  intro fuel
  induction fuel with
  | zero => intro w; exact World.passes_refl w
  | succ n ih =>
    intro w
    unfold CompleteTask_poll
    split_ifs
    · exact World.passes_refl w
    · exact World.passes_trans (World.delay_passes 1 w) (ih w.spin)
    · exact World.passes_refl w

/-- The AUX wait ends for the reason the source gives: AUX reads HIGH or more
than `timeout` milliseconds have gone by; the fuel `timeout + 2` is never
used up before that. -/
theorem CompleteTask_poll_exit (start timeout : Nat) :
    ∀ (fuel : Nat) (w : World), start ≤ w.now → timeout + 2 ≤ (w.now - start) + fuel →
      (CompleteTask_poll start timeout fuel w).digitalReadFast_AUX = HIGH ∨
      timeout < (CompleteTask_poll start timeout fuel w).millis - start := by
  intro fuel
  induction fuel with
  | zero =>
    intro w _ h2
    right
    simp only [CompleteTask_poll, World.millis]
    omega
  | succ n ih =>
    intro w h1 h2
    unfold CompleteTask_poll
    split_ifs with ha hb
    · right; exact hb
    · apply ih w.spin
      · simp only [World.spin, World.delay_now]; omega
      · simp only [World.spin, World.delay_now]; omega
    · left
      cases h : w.digitalReadFast_AUX with
      | true => rfl
      | false => exact absurd h ha

theorem CompleteTask_passes (timeout : Nat) (d : EBYTE) (w : World) :
    w.passes (CompleteTask timeout d w) := by
  unfold CompleteTask
  split_ifs
  · exact World.passes_trans (CompleteTask_poll_passes _ _ _ w) (World.delay_passes 20 _)
  · exact World.passes_trans (World.delay_passes 1000 w) (World.delay_passes 20 _)

/-- The method `CompleteTask` always takes at least its final 20 ms. -/
theorem CompleteTask_now (timeout : Nat) (d : EBYTE) (w : World) :
    w.now + 20 ≤ (CompleteTask timeout d w).now := by
  unfold CompleteTask
  split_ifs
  · have h := (CompleteTask_poll_passes w.millis timeout (timeout + 2) w).2.1
    simp only [World.delay_now]; omega
  · simp only [World.delay_now]; omega

/-- The drain loop, started at the current time, removes every buffered byte
and does nothing else. -/
theorem ClearBuffer_loop_eq :
    ∀ (fuel : Nat) (w : World), w.rx.length < fuel →
      ClearBuffer_loop w.now fuel w = { w with rx := [] } := by
  intro fuel
  induction fuel with
  | zero => intro w h; exact absurd h (Nat.not_lt_zero _)
  | succ n ih =>
    intro w h
    unfold ClearBuffer_loop
    cases hrx : w.rx with
    | nil =>
      have : w.available = 0 := by simp [World.available, hrx]
      simp only [this, ne_eq, not_true_eq_false, if_false]
      cases w
      simp_all
    | cons b rest =>
      have hav : w.available ≠ 0 := by simp [World.available, hrx]
      have hr : w.read.2 = { w with rx := rest } := by simp [World.read, hrx]
      have hlen : ({ w with rx := rest } : World).rx.length < n := by
        simp only [hrx, List.length_cons] at h
        simpa using Nat.lt_of_succ_lt_succ h
      have hnow : ({ w with rx := rest } : World).now = w.now := rfl
      simp only [hav, ne_eq, not_false_eq_true, if_true, hr, World.millis, Nat.sub_self,
        Nat.not_lt_zero, if_false]
      have := ih { w with rx := rest } hlen
      rw [hnow] at this
      rw [this]

/-- The method `ClearBuffer` empties the receive buffer and changes nothing else. -/
theorem ClearBuffer_eq (w : World) : ClearBuffer w = { w with rx := [] } := by
  unfold ClearBuffer
  exact ClearBuffer_loop_eq _ w (by simp [World.available])

/-- The wait for the first echo byte ends for the reason the source gives: a
byte is available or 5000 ms have gone by; the fuel 5001 is never used up
before that. -/
theorem SaveParameters_wait_exit (start : Nat) :
    ∀ (fuel : Nat) (w : World), start ≤ w.now → 5000 ≤ (w.now - start) + fuel →
      (SaveParameters_wait start fuel w).available ≠ 0 ∨
      5000 ≤ (SaveParameters_wait start fuel w).millis - start := by
  intro fuel
  induction fuel with
  | zero =>
    intro w _ h2
    right
    simp only [SaveParameters_wait, World.millis]
    omega
  | succ n ih =>
    intro w h1 h2
    unfold SaveParameters_wait
    split_ifs with hc
    · apply ih w.spin
      · simp only [World.spin, World.delay_now]; omega
      · simp only [World.spin, World.delay_now]; omega
    · simp only [Bool.and_eq_true, decide_eq_true_eq, not_and, not_lt, World.millis] at hc
      by_cases ha : w.available = 0
      · right; exact hc ha
      · left; exact ha

theorem SaveParameters_wait_passes (start : Nat) :
    ∀ (fuel : Nat) (w : World), w.passes (SaveParameters_wait start fuel w) := by
  intro fuel
  induction fuel with
  | zero => intro w; exact World.passes_refl w
  | succ n ih =>
    intro w
    unfold SaveParameters_wait
    split_ifs
    · exact World.passes_trans (World.delay_passes 1 w) (ih w.spin)
    · exact World.passes_refl w

/-- The wait for the RSSI byte ends for the reason the source gives: more
than 5 ms have gone by or a byte is available; the fuel 7 is never used up
before that. -/
theorem GetStruct_poll_exit (start : Nat) :
    ∀ (fuel : Nat) (w : World), start ≤ w.now → 6 ≤ (w.now - start) + fuel →
      5 < (GetStruct_poll start fuel w).millis - start ∨
      (GetStruct_poll start fuel w).available ≠ 0 := by
  intro fuel
  induction fuel with
  | zero =>
    intro w _ h2
    left
    simp only [GetStruct_poll, World.millis]
    omega
  | succ n ih =>
    intro w h1 h2
    unfold GetStruct_poll
    split_ifs with hc
    · apply ih w.spin
      · simp only [World.spin, World.delay_now]; omega
      · simp only [World.spin, World.delay_now]; omega
    · simp only [Bool.and_eq_true, decide_eq_true_eq, not_and, World.millis] at hc
      by_cases ht : w.now - start ≤ 5
      · right; exact hc ht
      · left; simp only [World.millis]; omega

theorem GetStruct_poll_passes (start : Nat) :
    ∀ (fuel : Nat) (w : World), w.passes (GetStruct_poll start fuel w) := by
  intro fuel
  induction fuel with
  | zero => intro w; exact World.passes_refl w
  | succ n ih =>
    intro w
    unfold GetStruct_poll
    split_ifs
    · exact World.passes_trans (World.delay_passes 1 w) (ih w.spin)
    · exact World.passes_refl w

/-! ## Theorems: mode controller -/

theorem SetMode_pins_frame (mode : MODE_TYPE) (w : World) :
    (SetMode_pins mode w).now = w.now ∧ (SetMode_pins mode w).rx = w.rx ∧
    (SetMode_pins mode w).wire = w.wire ∧ (SetMode_pins mode w).written = w.written ∧
    (SetMode_pins mode w).serial = w.serial ∧ (SetMode_pins mode w).accept = w.accept := by
  unfold SetMode_pins
  split_ifs <;> exact ⟨rfl, rfl, rfl, rfl, rfl, rfl⟩

theorem SetMode_baud_frame (mode : MODE_TYPE) (d : EBYTE) (w : World) :
    (SetMode_baud mode d w).2.now = w.now ∧ (SetMode_baud mode d w).2.rx = w.rx ∧
    (SetMode_baud mode d w).2.wire = w.wire ∧ (SetMode_baud mode d w).2.written = w.written ∧
    (SetMode_baud mode d w).2.serial = w.serial ∧ (SetMode_baud mode d w).2.accept = w.accept := by
  unfold SetMode_baud
  split_ifs <;> exact ⟨rfl, rfl, rfl, rfl, rfl, rfl⟩

/-- The driver state after `SetMode`: only `lastModeSet` and the recorded
baud code can differ from the state before. -/
theorem SetMode_driver (mode : MODE_TYPE) (d : EBYTE) (w : World) :
    (SetMode mode d w).1 =
      { d with lastModeSet := mode, currentBaudRate := (SetMode mode d w).1.currentBaudRate } := by
  simp only [SetMode, SetMode_baud]
  split_ifs <;> rfl

/-- The world after `SetMode`, with the drain replaced by its effect. -/
theorem SetMode_world (mode : MODE_TYPE) (d : EBYTE) (w : World) :
    (SetMode mode d w).2 =
      CompleteTask 4000 (SetMode_baud mode d (SetMode_pins mode (w.delay PIN_RECOVER))).1
        { ((SetMode_baud mode d (SetMode_pins mode (w.delay PIN_RECOVER))).2.delay PIN_RECOVER)
          with rx := [] } := by
  simp only [SetMode, ClearBuffer_eq]

/-- The pins after `SetMode` are the ones written by its two `if` chains. -/
theorem SetMode_pins_after (mode : MODE_TYPE) (d : EBYTE) (w : World) :
    (SetMode mode d w).2.M0
        = (SetMode_baud mode d (SetMode_pins mode (w.delay PIN_RECOVER))).2.M0 ∧
    (SetMode mode d w).2.M1
        = (SetMode_baud mode d (SetMode_pins mode (w.delay PIN_RECOVER))).2.M1 := by
  rw [SetMode_world]
  have h := (CompleteTask_passes 4000
    (SetMode_baud mode d (SetMode_pins mode (w.delay PIN_RECOVER))).1
    { ((SetMode_baud mode d (SetMode_pins mode (w.delay PIN_RECOVER))).2.delay PIN_RECOVER)
      with rx := [] }).1
  simp only [World.effects, Prod.mk.injEq] at h
  exact ⟨h.1, h.2.1⟩

/-- What `SetMode(MODE_NORMAL)` leaves behind: both pins LOW, mode recorded. -/
theorem SetMode_normal_post (d : EBYTE) (w : World) :
    (SetMode .MODE_NORMAL d w).2.M0 = LOW ∧ (SetMode .MODE_NORMAL d w).2.M1 = LOW ∧
    (SetMode .MODE_NORMAL d w).1.lastModeSet = .MODE_NORMAL := by
  have h := SetMode_pins_after .MODE_NORMAL d w
  refine ⟨?_, ?_, ?_⟩
  · rw [h.1]; simp only [SetMode_baud, SetMode_pins]; split_ifs <;> first | rfl | contradiction
  · rw [h.2]; simp only [SetMode_baud, SetMode_pins]; split_ifs <;> first | rfl | contradiction
  · rw [SetMode_driver]

/-- What `SetMode` keeps in the world: the written bytes, the write script
and the console. -/
theorem SetMode_frame (mode : MODE_TYPE) (d : EBYTE) (w : World) :
    (SetMode mode d w).2.written = w.written ∧ (SetMode mode d w).2.serial = w.serial ∧
    (SetMode mode d w).2.accept = w.accept := by
  rw [SetMode_world]
  have h := (CompleteTask_passes 4000
    (SetMode_baud mode d (SetMode_pins mode (w.delay PIN_RECOVER))).1
    { ((SetMode_baud mode d (SetMode_pins mode (w.delay PIN_RECOVER))).2.delay PIN_RECOVER)
      with rx := [] }).1
  simp only [World.effects, Prod.mk.injEq] at h
  have hb := SetMode_baud_frame mode d (SetMode_pins mode (w.delay PIN_RECOVER))
  have hp := SetMode_pins_frame mode (w.delay PIN_RECOVER)
  refine ⟨?_, ?_, ?_⟩
  · rw [h.2.2.1]; exact hb.2.2.2.1.trans hp.2.2.2.1
  · rw [h.2.2.2.2.2.1]; exact hb.2.2.2.2.1.trans hp.2.2.2.2.1
  · rw [h.2.2.2.1]; exact hb.2.2.2.2.2.trans hp.2.2.2.2.2

end EBYTE

/-- Claim C9: after `SetMode(target)` the pins (M0, M1) are (LOW, LOW) for
NORMAL, (HIGH, LOW) for WOR transmit, (LOW, HIGH) for WOR receive and
(HIGH, HIGH) for PROGRAM, and `lastModeSet` is the target. -/
theorem C9_SetMode_pins_and_mode (d : EBYTE) (w : World) :
    ((EBYTE.SetMode .MODE_NORMAL d w).2.M0 = LOW ∧
      (EBYTE.SetMode .MODE_NORMAL d w).2.M1 = LOW ∧
      (EBYTE.SetMode .MODE_NORMAL d w).1.lastModeSet = .MODE_NORMAL) ∧
    ((EBYTE.SetMode .MODE_WORtransmit d w).2.M0 = HIGH ∧
      (EBYTE.SetMode .MODE_WORtransmit d w).2.M1 = LOW ∧
      (EBYTE.SetMode .MODE_WORtransmit d w).1.lastModeSet = .MODE_WORtransmit) ∧
    ((EBYTE.SetMode .MODE_WORreceive d w).2.M0 = LOW ∧
      (EBYTE.SetMode .MODE_WORreceive d w).2.M1 = HIGH ∧
      (EBYTE.SetMode .MODE_WORreceive d w).1.lastModeSet = .MODE_WORreceive) ∧
    ((EBYTE.SetMode .MODE_PROGRAM d w).2.M0 = HIGH ∧
      (EBYTE.SetMode .MODE_PROGRAM d w).2.M1 = HIGH ∧
      (EBYTE.SetMode .MODE_PROGRAM d w).1.lastModeSet = .MODE_PROGRAM) := by
  refine ⟨EBYTE.SetMode_normal_post d w, ⟨?_, ?_, ?_⟩, ⟨?_, ?_, ?_⟩, ⟨?_, ?_, ?_⟩⟩
  · rw [(EBYTE.SetMode_pins_after _ d w).1]
    simp only [EBYTE.SetMode_baud, EBYTE.SetMode_pins]; split_ifs <;> rfl
  · rw [(EBYTE.SetMode_pins_after _ d w).2]
    simp only [EBYTE.SetMode_baud, EBYTE.SetMode_pins]; split_ifs <;> first | rfl | contradiction
  · rw [EBYTE.SetMode_driver]
  · rw [(EBYTE.SetMode_pins_after _ d w).1]
    simp only [EBYTE.SetMode_baud, EBYTE.SetMode_pins]; split_ifs <;> first | rfl | contradiction
  · rw [(EBYTE.SetMode_pins_after _ d w).2]
    simp only [EBYTE.SetMode_baud, EBYTE.SetMode_pins]; split_ifs <;> rfl
  · rw [EBYTE.SetMode_driver]
  · rw [(EBYTE.SetMode_pins_after _ d w).1]
    simp only [EBYTE.SetMode_baud, EBYTE.SetMode_pins]; split_ifs <;> rfl
  · rw [(EBYTE.SetMode_pins_after _ d w).2]
    simp only [EBYTE.SetMode_baud, EBYTE.SetMode_pins]; split_ifs <;> rfl
  · rw [EBYTE.SetMode_driver]

/-- Claim C10: when no further byte is on its way, whatever is buffered on
the transport before `SetMode` is gone afterwards, for every target mode, and
the call has lasted at least the two settle delays (30 ms). -/
theorem C10_SetMode_drains (mode : MODE_TYPE) (d : EBYTE) (w : World) (h : w.wire = []) :
    (EBYTE.SetMode mode d w).2.available = 0 ∧
    w.now + 2 * PIN_RECOVER ≤ (EBYTE.SetMode mode d w).2.now := by
  rw [EBYTE.SetMode_world]
  have hb := EBYTE.SetMode_baud_frame mode d (EBYTE.SetMode_pins mode (w.delay PIN_RECOVER))
  have hp := EBYTE.SetMode_pins_frame mode (w.delay PIN_RECOVER)
  have h1 := (World.delay_passes PIN_RECOVER w).2.2 h
  have hw : (EBYTE.SetMode_baud mode d (EBYTE.SetMode_pins mode (w.delay PIN_RECOVER))).2.wire
      = [] := by rw [hb.2.2.1, hp.2.2.1]; exact h1.1
  have h2 := (World.delay_passes PIN_RECOVER
    (EBYTE.SetMode_baud mode d (EBYTE.SetMode_pins mode (w.delay PIN_RECOVER))).2).2.2 hw
  have hc := EBYTE.CompleteTask_passes 4000
    (EBYTE.SetMode_baud mode d (EBYTE.SetMode_pins mode (w.delay PIN_RECOVER))).1
    { ((EBYTE.SetMode_baud mode d (EBYTE.SetMode_pins mode (w.delay PIN_RECOVER))).2.delay
        PIN_RECOVER) with rx := [] }
  constructor
  · have := (hc.2.2 h2.1).2
    simp only [World.available, this, List.length_nil]
  · have hnow : ({ ((EBYTE.SetMode_baud mode d
        (EBYTE.SetMode_pins mode (w.delay PIN_RECOVER))).2.delay PIN_RECOVER)
        with rx := [] } : World).now = w.now + PIN_RECOVER + PIN_RECOVER := by
      show ((EBYTE.SetMode_baud mode d
        (EBYTE.SetMode_pins mode (w.delay PIN_RECOVER))).2.delay PIN_RECOVER).now = _
      rw [World.delay_now, hb.1, hp.1, World.delay_now]
    refine Nat.le_trans ?_ hc.2.1
    rw [hnow]
    omega

/-- Claim C10 at a transport holding three stale bytes: `SetMode` to PROGRAM
leaves it empty and takes at least 30 ms. -/
theorem C10_SetMode_drains_witness :
    garbageWorld.available = 3 ∧
    (EBYTE.SetMode .MODE_PROGRAM sampleDriver garbageWorld).2.available = 0 ∧
    garbageWorld.now + 2 * PIN_RECOVER
      ≤ (EBYTE.SetMode .MODE_PROGRAM sampleDriver garbageWorld).2.now :=
  ⟨rfl, C10_SetMode_drains .MODE_PROGRAM sampleDriver garbageWorld rfl⟩

/-! ## Theorems: data session and configuration session -/

theorem World.effects_fields {a b : World} (h : a.effects = b.effects) :
    a.M0 = b.M0 ∧ a.M1 = b.M1 ∧ a.written = b.written ∧ a.accept = b.accept ∧
    a.serial = b.serial := by
  simp only [World.effects, Prod.mk.injEq] at h
  exact ⟨h.1, h.2.1, h.2.2.1, h.2.2.2.1, h.2.2.2.2.2.1⟩

theorem World.timedRead_effects (w : World) : (w.timedRead).2.effects = w.effects := by
  unfold World.timedRead
  split
  · rfl
  · split
    · rfl
    · split_ifs
      · split <;> rfl
      · rfl

theorem World.readBytes_effects : ∀ (n : Nat) (w : World), (w.readBytes n).2.effects = w.effects := by
  intro n
  induction n with
  | zero => intro w; rfl
  | succ k ih =>
    intro w
    unfold World.readBytes
    have ht := World.timedRead_effects w
    split
    · rename_i b w1 heq
      rw [heq] at ht
      exact (ih w1).trans ht
    · rename_i w1 heq
      rw [heq] at ht
      exact ht

theorem World.readBytes_length : ∀ (n : Nat) (w : World), (w.readBytes n).1.length ≤ n := by
  intro n
  induction n with
  | zero => intro w; simp [World.readBytes]
  | succ k ih =>
    intro w
    unfold World.readBytes
    split
    · rename_i b w1 heq
      simpa using ih w1
    · simp

theorem World.read_effects (w : World) : (w.read).2.effects = w.effects := by
  unfold World.read
  split <;> rfl

namespace EBYTE

theorem SendStruct_world (T : List Nat) (n : Nat) (d : EBYTE) (w : World) :
    (SendStruct T n d w).2.2.written = w.written ++ [T.take n] ∧
    (SendStruct T n d w).2.2.serial = w.serial := by
  have h := World.effects_fields (CompleteTask_passes 1000
    { d with _buf := (w.write (T.take n)).1 % 256 } (w.write (T.take n)).2).1
  simp only [SendStruct]
  rw [h.2.2.1, h.2.2.2.2]
  unfold World.write
  split <;> exact ⟨rfl, rfl⟩

theorem SendStruct_driver (T : List Nat) (n : Nat) (d : EBYTE) (w : World) :
    (SendStruct T n d w).2.1 = { d with _buf := (SendStruct T n d w).2.1._buf } := rfl

theorem GetStruct_rssi_effects (d : EBYTE) (w : World) :
    (GetStruct_rssi d w).2.effects = w.effects := by
  simp only [GetStruct_rssi]
  split_ifs
  · exact (World.read_effects _).trans (GetStruct_poll_passes _ _ _).1
  · exact (GetStruct_poll_passes _ _ _).1
  · rfl

theorem GetStruct_rssi_driver (d : EBYTE) (w : World) :
    (GetStruct_rssi d w).1 =
      { d with newRSSIdataAvailable := (GetStruct_rssi d w).1.newRSSIdataAvailable,
               RSSIdata := (GetStruct_rssi d w).1.RSSIdata } := by
  simp only [GetStruct_rssi]
  split_ifs <;> rfl

theorem GetStruct_effects (n : Nat) (d : EBYTE) (w : World) :
    (GetStruct n d w).2.2.2.effects = w.effects := by
  simp only [GetStruct]
  exact ((CompleteTask_passes _ _ _).1.trans (GetStruct_rssi_effects _ _)).trans
    (World.readBytes_effects n w)

/-- The result of `GetStruct`: the bytes it returns are those of `readBytes`,
and its `bool` compares their number, narrowed to eight bits, with `size_`. -/
theorem GetStruct_result (n : Nat) (d : EBYTE) (w : World) :
    (GetStruct n d w).2.1 = (w.readBytes n).1 ∧
    (GetStruct n d w).1 = decide ((w.readBytes n).1.length % 256 = n) := by
  refine ⟨rfl, ?_⟩
  simp only [GetStruct]
  rw [GetStruct_rssi_driver]

theorem GetStruct_driver (n : Nat) (d : EBYTE) (w : World) :
    (GetStruct n d w).2.2.1 =
      { d with _buf := (GetStruct n d w).2.2.1._buf,
               newRSSIdataAvailable := (GetStruct n d w).2.2.1.newRSSIdataAvailable,
               RSSIdata := (GetStruct n d w).2.2.1.RSSIdata } := by
  simp only [GetStruct]
  rw [GetStruct_rssi_driver]

/-- The world after the first part of `SaveParameters`: exactly one write,
of the staged nine-byte frame. -/
theorem SaveParameters_send_written (val : PROGRAM_COMMAND_Type) (d : EBYTE) (w : World) :
    (SaveParameters_send val d w).2.written =
      w.written ++ [[val.toNat, 0, 6, d._AddressHigh, d._AddressLow, d._REG0, d._REG1,
        d._Channel, d._REG3]] := by
  simp only [SaveParameters_send]
  rw [(World.effects_fields (SaveParameters_wait_passes _ _ _).1).2.2.1]
  have hs := SendStruct_world
    (SetMode .MODE_PROGRAM (stageConfig val.toNat d) w).1.config.toBytes sizeof_config
    (SetMode .MODE_PROGRAM (stageConfig val.toNat d) w).1
    ((SetMode .MODE_PROGRAM (stageConfig val.toNat d) w).2.delay 5)
  have hw : ((SetMode .MODE_PROGRAM (stageConfig val.toNat d) w).2.delay 5).written
      = w.written := (SetMode_frame _ _ _).1
  have hc : (SetMode .MODE_PROGRAM (stageConfig val.toNat d) w).1.config.toBytes
      = [val.toNat, 0, 6, d._AddressHigh, d._AddressLow, d._REG0, d._REG1,
        d._Channel, d._REG3] := by
    rw [SetMode_driver]; rfl
  have hp : ∀ (l : String) (x : World), (x.println l).written = x.written := fun _ _ => rfl
  have ht : List.take sizeof_config [val.toNat, 0, 6, d._AddressHigh, d._AddressLow, d._REG0,
      d._REG1, d._Channel, d._REG3] = [val.toNat, 0, 6, d._AddressHigh, d._AddressLow, d._REG0,
      d._REG1, d._Channel, d._REG3] := rfl
  split_ifs
  · rw [hp, hs.1, hw, hc, ht]
  · rw [hs.1, hw, hc, ht]

/-- The world after `SaveParameters`, in terms of the world after its first
part: no further write; the console gets the line about the echo exactly
when `GetStruct` reports failure. -/
theorem SaveParameters_after_send (val : PROGRAM_COMMAND_Type) (d : EBYTE) (w : World) :
    (SaveParameters val d w).2.written = (SaveParameters_send val d w).2.written ∧
    (SaveParameters val d w).2.serial =
      if (GetStruct sizeof_config (SaveParameters_send val d w).1
          (SaveParameters_send val d w).2).1
      then (SaveParameters_send val d w).2.serial
      else (SaveParameters_send val d w).2.serial
        ++ ["SaveParameters:Unable to Get Config from Tranceiver"] := by
  have hg := World.effects_fields (GetStruct_effects sizeof_config
    (SaveParameters_send val d w).1 (SaveParameters_send val d w).2)
  simp only [SaveParameters]
  constructor
  · rw [(SetMode_frame _ _ _).1, (World.effects_fields (CompleteTask_passes _ _ _).1).2.2.1]
    split_ifs
    · exact hg.2.2.1
    · exact hg.2.2.1
  · rw [(SetMode_frame _ _ _).2.1, (World.effects_fields (CompleteTask_passes _ _ _).1).2.2.2.2]
    split_ifs <;> simp_all [World.println]

end EBYTE

/-- Claim C8: the only bytes `SaveParameters` hands to the transport are the
nine bytes command, 0x00, 0x06, address high, address low, REG0, REG1,
channel, REG3, with command 0xC0 for PERMANENT and 0xC2 for TEMPORARY. -/
theorem C8_SaveParameters_wire_frame (d : EBYTE) (w : World) :
    (EBYTE.SaveParameters PERMANENT d w).2.written =
      w.written ++ [[0xC0, 0x00, 0x06, d._AddressHigh, d._AddressLow, d._REG0, d._REG1,
        d._Channel, d._REG3]] ∧
    (EBYTE.SaveParameters TEMPORARY d w).2.written =
      w.written ++ [[0xC2, 0x00, 0x06, d._AddressHigh, d._AddressLow, d._REG0, d._REG1,
        d._Channel, d._REG3]] := by
  constructor
  · rw [(EBYTE.SaveParameters_after_send _ d w).1, EBYTE.SaveParameters_send_written]; rfl
  · rw [(EBYTE.SaveParameters_after_send _ d w).1, EBYTE.SaveParameters_send_written]; rfl

/-- A mask below 256 only looks at the low byte. -/
theorem and_byte_mask (x m : Nat) (hm : m < 256) : x &&& m = (x % 256) &&& m := by
  apply Nat.eq_of_testBit_eq
  intro i
  have h256 : (256 : Nat) = 2 ^ 8 := rfl
  rw [Nat.testBit_and, Nat.testBit_and, h256, Nat.testBit_mod_two_pow]
  by_cases hi : i < 8
  · simp [hi]
  · have hm2 : m < 2 ^ i :=
      Nat.lt_of_lt_of_le hm (by rw [h256]; exact Nat.pow_le_pow_right (by decide) (by omega))
    simp [Nat.testBit_lt_two_pow hm2]

/-- The ten decode expressions of `ReadParameters` on a byte, as bit fields. -/
theorem decode_fin : ∀ b : Fin 256,
    ((b.val &&& 0b11100000) >>> 5) % 256 = b.val / 32 % 8 ∧
    ((b.val &&& 0b00011000) >>> 3) % 256 = b.val / 8 % 4 ∧
    (b.val &&& 0b00000111) % 256 = b.val % 8 ∧
    ((b.val &&& 0b11000000) >>> 6) % 256 = b.val / 64 % 4 ∧
    decide (((b.val &&& 0b00100000) >>> 4) ≠ 0) = decide (b.val / 32 % 2 = 1) ∧
    (b.val &&& 0b00000011) % 256 = b.val % 4 ∧
    decide (((b.val &&& 0b10000000) >>> 7) ≠ 0) = decide (b.val / 128 % 2 = 1) ∧
    ((b.val &&& 0b01000000) >>> 6) % 256 = b.val / 64 % 2 ∧
    decide (((b.val &&& 0b00010000) >>> 4) ≠ 0) = decide (b.val / 16 % 2 = 1) := by
  decide

/-- The ten decode expressions of `ReadParameters` on any value, as bit fields. -/
theorem decode_nat (x : Nat) :
    ((x &&& 0b11100000) >>> 5) % 256 = x / 32 % 8 ∧
    ((x &&& 0b00011000) >>> 3) % 256 = x / 8 % 4 ∧
    (x &&& 0b00000111) % 256 = x % 8 ∧
    ((x &&& 0b11000000) >>> 6) % 256 = x / 64 % 4 ∧
    decide (((x &&& 0b00100000) >>> 4) ≠ 0) = decide (x / 32 % 2 = 1) ∧
    (x &&& 0b00000011) % 256 = x % 4 ∧
    decide (((x &&& 0b10000000) >>> 7) ≠ 0) = decide (x / 128 % 2 = 1) ∧
    ((x &&& 0b01000000) >>> 6) % 256 = x / 64 % 2 ∧
    decide (((x &&& 0b00010000) >>> 4) ≠ 0) = decide (x / 16 % 2 = 1) := by
  have hb := decode_fin ⟨x % 256, Nat.mod_lt _ (by decide)⟩
  simp only [] at hb
  have a1 : x % 256 / 32 % 8 = x / 32 % 8 := by omega
  have a2 : x % 256 / 8 % 4 = x / 8 % 4 := by omega
  have a3 : x % 256 % 8 = x % 8 := by omega
  have a4 : x % 256 / 64 % 4 = x / 64 % 4 := by omega
  have a5 : x % 256 / 32 % 2 = x / 32 % 2 := by omega
  have a6 : x % 256 % 4 = x % 4 := by omega
  have a7 : x % 256 / 128 % 2 = x / 128 % 2 := by omega
  have a8 : x % 256 / 64 % 2 = x / 64 % 2 := by omega
  have a9 : x % 256 / 16 % 2 = x / 16 % 2 := by omega
  rw [a1, a2, a3, a4, a5, a6, a7, a8, a9] at hb
  rw [and_byte_mask x 0b11100000 (by decide), and_byte_mask x 0b00011000 (by decide),
    and_byte_mask x 0b00000111 (by decide), and_byte_mask x 0b11000000 (by decide),
    and_byte_mask x 0b00100000 (by decide), and_byte_mask x 0b00000011 (by decide),
    and_byte_mask x 0b10000000 (by decide), and_byte_mask x 0b01000000 (by decide),
    and_byte_mask x 0b00010000 (by decide)]
  exact hb

/-- Claim C4: when the transport delivers the nine bytes
`0xC1, s, l, ah, al, r0, r1, ch, r3` to the read of `ReadParameters`, the
method returns true and leaves address, channel and the ten sub-fields equal
to the corresponding bytes and bit fields of the reply. -/
theorem C4_ReadParameters_full_reply (d : EBYTE) (w : World) (s l ah al r0 r1 ch r3 : Nat)
    (h : ((EBYTE.ReadParameters_request d w).2.readBytes sizeof_config).1
      = [0xC1, s, l, ah, al, r0, r1, ch, r3]) :
    (EBYTE.ReadParameters d w).1 = true ∧
    (EBYTE.ReadParameters d w).2.1._AddressHigh = ah ∧
    (EBYTE.ReadParameters d w).2.1._AddressLow = al ∧
    (EBYTE.ReadParameters d w).2.1._Channel = ch ∧
    (EBYTE.ReadParameters d w).2.1.subFields =
      (r0 / 32 % 8, r0 / 8 % 4, r0 % 8,
        r1 / 64 % 4, decide (r1 / 32 % 2 = 1), r1 % 4,
        decide (r3 / 128 % 2 = 1), r3 / 64 % 2, decide (r3 / 16 % 2 = 1), r3 % 8) := by
  have e : EBYTE.ReadParameters d w =
      EBYTE.ReadParameters_finish [0xC1, s, l, ah, al, r0, r1, ch, r3]
        (EBYTE.ReadParameters_request d w).1
        ((EBYTE.ReadParameters_request d w).2.readBytes sizeof_config).2 := by
    simp only [EBYTE.ReadParameters]
    rw [h]
  have d0 := decode_nat r0
  have d1 := decode_nat r1
  have d3 := decode_nat r3
  rw [e]
  simp only [EBYTE.ReadParameters_finish]
  rw [EBYTE.SetMode_driver]
  simp only [EBYTE.ReadParameters_unpack, EBYTE.ReadParameters_copy, ConfigurationType.store,
    EBYTE.subFields, List.getD_cons_zero, List.getD_cons_succ, RETURNED_COMMAND]
  rw [d0.1, d0.2.1, d0.2.2.1, d1.2.2.2.1, d1.2.2.2.2.1, d1.2.2.2.2.2.1,
    d3.2.2.2.2.2.2.1, d3.2.2.2.2.2.2.2.1, d3.2.2.2.2.2.2.2.2, d3.2.2.1]
  and_intros <;> trivial

/-- Claim C4 on a fresh driver and a transport that answers with
`C1 00 06 12 34 F5 E1 17 C6`: the read gets these nine bytes, and
`ReadParameters` returns true with address 0x12 0x34, channel 0x17 and the
sub-fields 7, 2, 5, 3, on, 1, on, 1, off, 6. -/
theorem C4_ReadParameters_full_reply_witness :
    ((EBYTE.ReadParameters_request freshDriver replyWorld).2.readBytes sizeof_config).1
      = [0xC1, 0x00, 0x06, 0x12, 0x34, 0xF5, 0xE1, 0x17, 0xC6] ∧
    (EBYTE.ReadParameters freshDriver replyWorld).1 = true ∧
    (EBYTE.ReadParameters freshDriver replyWorld).2.1._AddressHigh = 0x12 ∧
    (EBYTE.ReadParameters freshDriver replyWorld).2.1._AddressLow = 0x34 ∧
    (EBYTE.ReadParameters freshDriver replyWorld).2.1._Channel = 0x17 ∧
    (EBYTE.ReadParameters freshDriver replyWorld).2.1.subFields =
      (7, 2, 5, 3, true, 1, true, 1, false, 6) :=
  ⟨by decide,
    C4_ReadParameters_full_reply freshDriver replyWorld 0x00 0x06 0x12 0x34 0xF5 0xE1 0x17 0xC6
      (by decide)⟩

/-- The command byte staged by `ReadParameters` is still in `config` when the
reply is read. -/
theorem EBYTE.ReadParameters_request_command (d : EBYTE) (w : World) :
    (EBYTE.ReadParameters_request d w).1.config.COMMAND = 0xC1 := by
  show (EBYTE.SetMode .MODE_PROGRAM
    (EBYTE.stageConfig PROGRAM_COMMAND_Type.READ_CONFIGURATION.toNat d) w).1.config.COMMAND = 0xC1
  rw [EBYTE.SetMode_driver]
  rfl

/-- The value returned by `ReadParameters`: it compares with 0xC1 the first
byte of the reply, or, when no byte came, the command byte 0xC1 that the
method itself had staged in `config`. -/
theorem EBYTE.ReadParameters_result (d : EBYTE) (w : World) :
    (EBYTE.ReadParameters d w).1 =
      decide ((((EBYTE.ReadParameters_request d w).2.readBytes sizeof_config).1).getD 0 0xC1
        = 0xC1) := by
  simp only [EBYTE.ReadParameters, EBYTE.ReadParameters_finish]
  rw [EBYTE.SetMode_driver]
  simp only [EBYTE.ReadParameters_unpack, EBYTE.ReadParameters_copy, ConfigurationType.store,
    RETURNED_COMMAND, EBYTE.ReadParameters_request_command]

/-- Claim C5 fails on the code: on a transport that delivers no reply byte at
all, the read of `ReadParameters` gets nothing and the method still returns
true. -/
theorem C5_ReadParameters_no_reply_returns_true :
    ((EBYTE.ReadParameters_request sampleDriver quietWorld).2.readBytes sizeof_config).1 = [] ∧
    (EBYTE.ReadParameters sampleDriver quietWorld).1 = true := by
  decide

/-- The value returned by `SendStruct`: the count reported by the transport is
narrowed to eight bits before it is compared with `size_`. -/
theorem EBYTE.SendStruct_result (T : List Nat) (size_ : Nat) (d : EBYTE) (w : World) :
    (EBYTE.SendStruct T size_ d w).1 = decide ((w.write (T.take size_)).1 % 256 = size_) :=
  rfl

/-- Claim C6 fails on the code: for a payload of 256 bytes of which the
transport reports all 256 written, `SendStruct` returns false. -/
theorem C6_SendStruct_256_bytes_returns_false :
    (quietWorld.write ((List.replicate 256 0).take 256)).1 = 256 ∧
    (EBYTE.SendStruct (List.replicate 256 0) 256 sampleDriver quietWorld).1 = false := by
  decide

/-- Claim C7 as stated fails: `SaveParameters` returns nothing, and after an
echo of three bytes the caller reads from the driver object exactly what it
reads after a complete echo of nine bytes. -/
theorem C7_short_echo_not_reported :
    ((EBYTE.SaveParameters_send PERMANENT sampleDriver shortEchoWorld).2.readBytes
      sizeof_config).1 = [0xC0, 0x00, 0x06] ∧
    ((EBYTE.SaveParameters_send PERMANENT sampleDriver fullEchoWorld).2.readBytes
      sizeof_config).1 = [0xC0, 0x00, 0x06, 0x12, 0x34, 0xF5, 0xE1, 0x17, 0xC6] ∧
    (EBYTE.SaveParameters PERMANENT sampleDriver shortEchoWorld).1.publicView =
      (EBYTE.SaveParameters PERMANENT sampleDriver fullEchoWorld).1.publicView :=
  ⟨by decide, by decide, by decide!⟩

/-- Claim C7, amended: when fewer than nine bytes are echoed, `SaveParameters`
(which returns nothing) prints the line
`SaveParameters:Unable to Get Config from Tranceiver` on the console as its
last output, and ends with mode NORMAL recorded and both mode pins LOW. -/
theorem C7_SaveParameters_short_echo (val : PROGRAM_COMMAND_Type) (d : EBYTE) (w : World)
    (h : ((EBYTE.SaveParameters_send val d w).2.readBytes sizeof_config).1.length
      < sizeof_config) :
    (EBYTE.SaveParameters val d w).2.serial =
      (EBYTE.SaveParameters_send val d w).2.serial
        ++ ["SaveParameters:Unable to Get Config from Tranceiver"] ∧
    (EBYTE.SaveParameters val d w).1.lastModeSet = .MODE_NORMAL ∧
    (EBYTE.SaveParameters val d w).2.M0 = LOW ∧
    (EBYTE.SaveParameters val d w).2.M1 = LOW := by
  have hg : (EBYTE.GetStruct sizeof_config (EBYTE.SaveParameters_send val d w).1
      (EBYTE.SaveParameters_send val d w).2).1 = false := by
    rw [(EBYTE.GetStruct_result _ _ _).2]
    simp only [sizeof_config] at h ⊢
    have : ((EBYTE.SaveParameters_send val d w).2.readBytes 9).1.length % 256 ≠ 9 := by omega
    simp [this]
  refine ⟨?_, ?_⟩
  · rw [(EBYTE.SaveParameters_after_send val d w).2, hg]
    rfl
  · have hn := EBYTE.SetMode_normal_post
      { (EBYTE.GetStruct sizeof_config (EBYTE.SaveParameters_send val d w).1
            (EBYTE.SaveParameters_send val d w).2).2.2.1 with
        config := (EBYTE.GetStruct sizeof_config (EBYTE.SaveParameters_send val d w).1
            (EBYTE.SaveParameters_send val d w).2).2.2.1.config.store
          (EBYTE.GetStruct sizeof_config (EBYTE.SaveParameters_send val d w).1
            (EBYTE.SaveParameters_send val d w).2).2.1 }
    simp only [EBYTE.SaveParameters]
    exact ⟨(hn _).2.2, (hn _).1, (hn _).2.1⟩

/-- Claim C7, amended, on a transport that echoes three bytes only. -/
theorem C7_SaveParameters_short_echo_witness :
    ((EBYTE.SaveParameters_send PERMANENT sampleDriver shortEchoWorld).2.readBytes
      sizeof_config).1.length = 3 ∧
    (EBYTE.SaveParameters PERMANENT sampleDriver shortEchoWorld).2.serial =
      (EBYTE.SaveParameters_send PERMANENT sampleDriver shortEchoWorld).2.serial
        ++ ["SaveParameters:Unable to Get Config from Tranceiver"] ∧
    (EBYTE.SaveParameters PERMANENT sampleDriver shortEchoWorld).1.lastModeSet
      = .MODE_NORMAL ∧
    (EBYTE.SaveParameters PERMANENT sampleDriver shortEchoWorld).2.M0 = LOW ∧
    (EBYTE.SaveParameters PERMANENT sampleDriver shortEchoWorld).2.M1 = LOW :=
  ⟨by decide, C7_SaveParameters_short_echo PERMANENT sampleDriver shortEchoWorld (by decide)⟩

/-! ## Theorems: setters, noise conversion, RSSI query -/

/-- Claim C16: each of the ten sub-field setters stores its argument (as a
byte), leaves the owning register equal to the pack of the sub-fields as they
are after the call, and leaves the other two registers, the address bytes
and the channel as they were. -/
theorem C16_setters_keep_registers_in_sync (d : EBYTE) (v : Nat) (b : Bool) :
    ((EBYTE.SetUARTBaudRate v d)._UARTDataRate = v % 256 ∧
      (EBYTE.SetUARTBaudRate v d)._REG0 = ((EBYTE.SetUARTBaudRate v d).BuildREG0byte)._REG0 ∧
      (EBYTE.SetUARTBaudRate v d).frame0 = d.frame0) ∧
    ((EBYTE.SetParityBit v d)._ParityBit = v % 256 ∧
      (EBYTE.SetParityBit v d)._REG0 = ((EBYTE.SetParityBit v d).BuildREG0byte)._REG0 ∧
      (EBYTE.SetParityBit v d).frame0 = d.frame0) ∧
    ((EBYTE.SetAirDataRate v d)._AirDataRate = v % 256 ∧
      (EBYTE.SetAirDataRate v d)._REG0 = ((EBYTE.SetAirDataRate v d).BuildREG0byte)._REG0 ∧
      (EBYTE.SetAirDataRate v d).frame0 = d.frame0) ∧
    ((EBYTE.SetSubPacketSize v d)._SubPacketSize = v % 256 ∧
      (EBYTE.SetSubPacketSize v d)._REG1 = ((EBYTE.SetSubPacketSize v d).BuildREG1byte)._REG1 ∧
      (EBYTE.SetSubPacketSize v d).frame1 = d.frame1) ∧
    ((EBYTE.SetRSSIAmbientNoiseEnable b d)._RSSIAmbNoiseEnable = b ∧
      (EBYTE.SetRSSIAmbientNoiseEnable b d)._REG1
        = ((EBYTE.SetRSSIAmbientNoiseEnable b d).BuildREG1byte)._REG1 ∧
      (EBYTE.SetRSSIAmbientNoiseEnable b d).frame1 = d.frame1) ∧
    ((EBYTE.SetTransmitPower v d)._TransmitPower = v % 256 ∧
      (EBYTE.SetTransmitPower v d)._REG1 = ((EBYTE.SetTransmitPower v d).BuildREG1byte)._REG1 ∧
      (EBYTE.SetTransmitPower v d).frame1 = d.frame1) ∧
    ((EBYTE.SetEnableRSSIByte b d)._EnableRSSIByte = b ∧
      (EBYTE.SetEnableRSSIByte b d)._REG3 = ((EBYTE.SetEnableRSSIByte b d).BuildREG3byte)._REG3 ∧
      (EBYTE.SetEnableRSSIByte b d).frame3 = d.frame3) ∧
    ((EBYTE.SetTransmissionMode v d)._TransmitMode = v % 256 ∧
      (EBYTE.SetTransmissionMode v d)._REG3
        = ((EBYTE.SetTransmissionMode v d).BuildREG3byte)._REG3 ∧
      (EBYTE.SetTransmissionMode v d).frame3 = d.frame3) ∧
    ((EBYTE.SetEnableLBT b d)._EnableLBT = b ∧
      (EBYTE.SetEnableLBT b d)._REG3 = ((EBYTE.SetEnableLBT b d).BuildREG3byte)._REG3 ∧
      (EBYTE.SetEnableLBT b d).frame3 = d.frame3) ∧
    ((EBYTE.SetWORTIming v d)._WORTiming = v % 256 ∧
      (EBYTE.SetWORTIming v d)._REG3 = ((EBYTE.SetWORTIming v d).BuildREG3byte)._REG3 ∧
      (EBYTE.SetWORTIming v d).frame3 = d.frame3) :=
  ⟨⟨rfl, rfl, rfl⟩, ⟨rfl, rfl, rfl⟩, ⟨rfl, rfl, rfl⟩, ⟨rfl, rfl, rfl⟩, ⟨rfl, rfl, rfl⟩,
    ⟨rfl, rfl, rfl⟩, ⟨rfl, rfl, rfl⟩, ⟨rfl, rfl, rfl⟩, ⟨rfl, rfl, rfl⟩, ⟨rfl, rfl, rfl⟩⟩

/-- Claim C17: for a raw byte `r` the method `CalculateChannelNoiseIn_dBm`,
which takes nothing but `r` and returns nothing but the result, gives
`-(256 - r)`, a value that fits 16 signed bits; 0 gives -256 and 128 gives
-128. -/
theorem C17_noise_conversion (r : Nat) (h : r < 256) :
    EBYTE.CalculateChannelNoiseIn_dBm r = -(256 - (r : Int)) ∧
    -32768 ≤ -(256 - (r : Int)) ∧ -(256 - (r : Int)) ≤ 32767 ∧
    EBYTE.CalculateChannelNoiseIn_dBm 0 = -256 ∧
    EBYTE.CalculateChannelNoiseIn_dBm 128 = -128 := by
  refine ⟨?_, by omega, by omega, by decide, by decide⟩
  simp only [EBYTE.CalculateChannelNoiseIn_dBm, EBYTE.toInt16]
  omega

/-- Claim C17 at the raw byte 200, which gives -56. -/
theorem C17_noise_conversion_witness :
    (200 : Nat) < 256 ∧ EBYTE.CalculateChannelNoiseIn_dBm 200 = -56 :=
  ⟨by decide, (C17_noise_conversion 200 (by decide)).1⟩

/-- Claim C12: with the ambient-noise flag off, `GetRSSIValues` returns false
and changes neither the world (nothing written, nothing read) nor `RSSIdata`
and `RSSIlastReceive`. -/
theorem C12_GetRSSIValues_disabled (d : EBYTE) (w : World)
    (h : d._RSSIAmbNoiseEnable = false) :
    (EBYTE.GetRSSIValues d w).1 = false ∧
    (EBYTE.GetRSSIValues d w).2.2 = w ∧
    (EBYTE.GetRSSIValues d w).2.1.RSSIdata = d.RSSIdata ∧
    (EBYTE.GetRSSIValues d w).2.1.RSSIlastReceive = d.RSSIlastReceive := by
  simp [EBYTE.GetRSSIValues, h]

/-- Claim C12 on a fresh driver (flag off) and a transport holding three
stale bytes: the call returns false, writes nothing and reads nothing. -/
theorem C12_GetRSSIValues_disabled_witness :
    freshDriver._RSSIAmbNoiseEnable = false ∧
    (EBYTE.GetRSSIValues freshDriver garbageWorld).1 = false ∧
    (EBYTE.GetRSSIValues freshDriver garbageWorld).2.2 = garbageWorld ∧
    (EBYTE.GetRSSIValues freshDriver garbageWorld).2.1.RSSIdata = freshDriver.RSSIdata ∧
    (EBYTE.GetRSSIValues freshDriver garbageWorld).2.1.RSSIlastReceive
      = freshDriver.RSSIlastReceive :=
  ⟨rfl, C12_GetRSSIValues_disabled freshDriver garbageWorld rfl⟩

/-! ## Theorems: baud-rate switching -/

theorem World.effects_baudCalls {a b : World} (h : a.effects = b.effects) :
    a.baudCalls = b.baudCalls := by
  simp only [World.effects, Prod.mk.injEq] at h
  exact h.2.2.2.2.2.2

/-- The callback calls of `SetMode`: those made in its second `if`. -/
theorem EBYTE.SetMode_baudCalls (mode : MODE_TYPE) (d : EBYTE) (w : World) :
    (EBYTE.SetMode mode d w).2.baudCalls =
      (EBYTE.SetMode_baud mode d (EBYTE.SetMode_pins mode (w.delay PIN_RECOVER))).2.baudCalls := by
  rw [EBYTE.SetMode_world]
  exact World.effects_baudCalls (EBYTE.CompleteTask_passes 4000 _ _).1

/-- What `SetMode` does about the baud rate for a target other than PROGRAM:
with a callback registered and the recorded baud code different from the
configured one, the callback is called once, with the entry of `baudRates`
at the configured code, and the configured code is recorded; otherwise the
callback is not called and the record stays. -/
theorem EBYTE.SetMode_restore_baud (mode : MODE_TYPE) (d : EBYTE) (w : World)
    (hm : mode ≠ .MODE_PROGRAM) :
    (d.autoBaud = true → d.currentBaudRate ≠ d._UARTDataRate →
      (EBYTE.SetMode mode d w).2.baudCalls = w.baudCalls ++ [baudRates.get? d._UARTDataRate] ∧
      (EBYTE.SetMode mode d w).1.currentBaudRate = d._UARTDataRate) ∧
    ((d.autoBaud = false ∨ d.currentBaudRate = d._UARTDataRate) →
      (EBYTE.SetMode mode d w).2.baudCalls = w.baudCalls ∧
      (EBYTE.SetMode mode d w).1.currentBaudRate = d.currentBaudRate) := by
  have hp : (EBYTE.SetMode_pins mode (w.delay PIN_RECOVER)).baudCalls = w.baudCalls := by
    unfold EBYTE.SetMode_pins
    split_ifs <;> rfl
  constructor
  · intro ha hc
    constructor
    · rw [EBYTE.SetMode_baudCalls]
      simp [EBYTE.SetMode_baud, hm, ha, hc, World.setBaud, hp]
    · simp [EBYTE.SetMode, EBYTE.SetMode_baud, hm, ha, hc]
  · intro h
    have hcond : (d.autoBaud && decide (d.currentBaudRate ≠ d._UARTDataRate)) = false := by
      rcases h with h | h
      · simp [h]
      · simp [h]
    constructor
    · rw [EBYTE.SetMode_baudCalls]
      simp only [EBYTE.SetMode_baud, hm, if_false, hcond, Bool.false_eq_true, hp]
    · simp only [EBYTE.SetMode, EBYTE.SetMode_baud, hm, if_false, hcond, Bool.false_eq_true]

/-- Claim C11 fails on the code at UART code `UDR_38400`: leaving for NORMAL
with that code configured and another one recorded, `SetMode` calls the
callback once, with 34800, the sixth entry of `baudRates`. -/
theorem C11_baud_restore_at_UDR_38400 :
    autoBaudDriver.autoBaud = true ∧ autoBaudDriver._UARTDataRate = 0b101 ∧
    autoBaudDriver.currentBaudRate = 0b011 ∧
    (EBYTE.SetMode .MODE_NORMAL autoBaudDriver quietWorld).2.baudCalls = [some 34800] ∧
    (EBYTE.SetMode .MODE_NORMAL autoBaudDriver quietWorld).1.currentBaudRate = 0b101 := by
  decide

/-! ## Theorems: the RSSI query and the mode record -/

/-- With the ambient-noise flag set, the condition of `GetRSSIValues` holds
whatever the last mode set was, and leaves `MODE_WORtransmit` in the record. -/
theorem EBYTE.GetRSSIValues_enabled (d : EBYTE) (w : World) (h : d._RSSIAmbNoiseEnable = true) :
    EBYTE.GetRSSIValues d w =
      EBYTE.GetRSSIValues_query { d with lastModeSet := MODE_TYPE.MODE_WORtransmit } w := by
  simp [EBYTE.GetRSSIValues, h, MODE_TYPE.toNat]

theorem EBYTE.GetRSSIValues_query_lastModeSet (d : EBYTE) (w : World) :
    (EBYTE.GetRSSIValues_query d w).2.1.lastModeSet = d.lastModeSet := by
  simp only [EBYTE.GetRSSIValues_query]
  split_ifs <;> rfl

/-- The query of `GetRSSIValues` makes one write, of the six command bytes. -/
theorem EBYTE.GetRSSIValues_query_written (d : EBYTE) (w : World) :
    (EBYTE.GetRSSIValues_query d w).2.2.written
      = w.written ++ [[0xC0, 0xC1, 0xC2, 0xC3, 0x00, 0x02]] := by
  have hs := (EBYTE.SendStruct_world EBYTE.GetRSSIValues_transaction 6 d w).1
  have hr := fun (x : World) => (World.effects_fields (World.readBytes_effects 5 x)).2.2.1
  have hc := fun (t : Nat) (e : EBYTE) (x : World) =>
    (World.effects_fields (EBYTE.CompleteTask_passes t e x).1).2.2.1
  have hd : ∀ (x : World), (x.delay 50).written = x.written := fun _ => rfl
  simp only [EBYTE.GetRSSIValues_query]
  split_ifs
  · rw [hc, hr, hd, hs]; rfl
  · rw [hc, hr, hd, hs]; rfl
  · rw [hc, hs]; rfl

/-- The mode record after `GetRSSIValues`: with the ambient-noise flag set it
is `MODE_WORtransmit`, whatever it was. -/
theorem EBYTE.GetRSSIValues_lastModeSet (d : EBYTE) (w : World) :
    (EBYTE.GetRSSIValues d w).2.1.lastModeSet =
      if d._RSSIAmbNoiseEnable then MODE_TYPE.MODE_WORtransmit else d.lastModeSet := by
  cases h : d._RSSIAmbNoiseEnable with
  | false => simp [EBYTE.GetRSSIValues, h]
  | true =>
    rw [EBYTE.GetRSSIValues_enabled d w h, EBYTE.GetRSSIValues_query_lastModeSet]
    rfl

/-- With the ambient-noise flag set, `GetRSSIValues` sends its query whatever
the last mode set is. -/
theorem EBYTE.GetRSSIValues_sends (d : EBYTE) (w : World) (h : d._RSSIAmbNoiseEnable = true) :
    (EBYTE.GetRSSIValues d w).2.2.written
      = w.written ++ [[0xC0, 0xC1, 0xC2, 0xC3, 0x00, 0x02]] := by
  rw [EBYTE.GetRSSIValues_enabled d w h, EBYTE.GetRSSIValues_query_written]

/-- Claim C13 fails on the code: with ambient-noise detection enabled and
PROGRAM as the last mode set, `GetRSSIValues` sends the six-byte query and,
the module answering, returns true. -/
theorem C13_GetRSSIValues_queries_in_program_mode :
    programModeDriver._RSSIAmbNoiseEnable = true ∧
    programModeDriver.lastModeSet = .MODE_PROGRAM ∧
    (EBYTE.GetRSSIValues programModeDriver rssiReplyWorld).1 = true ∧
    (EBYTE.GetRSSIValues programModeDriver rssiReplyWorld).2.2.written
      = [[0xC0, 0xC1, 0xC2, 0xC3, 0x00, 0x02]] := by
  decide

/-- The operations other than `GetRSSIValues` that make no mode transition
leave `lastModeSet` alone, and a fresh driver has the sentinel. -/
theorem EBYTE.lastModeSet_frame (d : EBYTE) (w : World) (v n : Nat) (b : Bool) (T : List Nat) :
    freshDriver.lastModeSet = .MODE_NOT_SET ∧
    (EBYTE.SetAddressH v d).lastModeSet = d.lastModeSet ∧
    (EBYTE.SetAddressL v d).lastModeSet = d.lastModeSet ∧
    (EBYTE.SetAddress v d).lastModeSet = d.lastModeSet ∧
    (EBYTE.SetChannel v d).lastModeSet = d.lastModeSet ∧
    (EBYTE.SetUARTBaudRate v d).lastModeSet = d.lastModeSet ∧
    (EBYTE.SetParityBit v d).lastModeSet = d.lastModeSet ∧
    (EBYTE.SetAirDataRate v d).lastModeSet = d.lastModeSet ∧
    (EBYTE.SetSubPacketSize v d).lastModeSet = d.lastModeSet ∧
    (EBYTE.SetRSSIAmbientNoiseEnable b d).lastModeSet = d.lastModeSet ∧
    (EBYTE.SetTransmitPower v d).lastModeSet = d.lastModeSet ∧
    (EBYTE.SetEnableRSSIByte b d).lastModeSet = d.lastModeSet ∧
    (EBYTE.SetTransmissionMode v d).lastModeSet = d.lastModeSet ∧
    (EBYTE.SetEnableLBT b d).lastModeSet = d.lastModeSet ∧
    (EBYTE.SetWORTIming v d).lastModeSet = d.lastModeSet ∧
    (EBYTE.SendStruct T n d w).2.1.lastModeSet = d.lastModeSet ∧
    (EBYTE.GetStruct n d w).2.2.1.lastModeSet = d.lastModeSet := by
  refine ⟨rfl, rfl, rfl, rfl, rfl, rfl, rfl, rfl, rfl, rfl, rfl, rfl, rfl, rfl, rfl, rfl, ?_⟩
  rw [EBYTE.GetStruct_driver]

/-- Claim C14 fails on the code: on a driver with ambient-noise detection
enabled whose mode record is still the sentinel, `GetRSSIValues`, which makes
no mode transition, leaves `MODE_WORtransmit` in `lastModeSet`. -/
theorem C14_GetRSSIValues_overwrites_lastModeSet :
    noiseDriver.lastModeSet = .MODE_NOT_SET ∧
    (EBYTE.GetRSSIValues noiseDriver quietWorld).2.1.lastModeSet = .MODE_WORtransmit ∧
    (EBYTE.GetRSSIValues noiseDriver quietWorld).2.2.M0 = quietWorld.M0 ∧
    (EBYTE.GetRSSIValues noiseDriver quietWorld).2.2.M1 = quietWorld.M1 := by
  decide

/-- Claim C18 fails on the code: after `init` with a callback (the module
reports UART code `UDR_115200`, so the transport is switched to 115200) and
`SetUARTBaudRate(UDR_9600)`, the call `SetMode(MODE_PROGRAM)` does not call
the callback and the recorded baud code stays `UDR_115200`. -/
theorem C18_program_mode_at_operating_baud :
    afterInit.1 = true ∧ afterInit.2.1.autoBaud = true ∧
    afterInit.2.2.baudCalls = [some 9600, some 115200] ∧
    (EBYTE.SetMode .MODE_PROGRAM (EBYTE.SetUARTBaudRate UDR_9600 afterInit.2.1)
      afterInit.2.2).1.currentBaudRate = 0b111 ∧
    (EBYTE.SetMode .MODE_PROGRAM (EBYTE.SetUARTBaudRate UDR_9600 afterInit.2.1)
      afterInit.2.2).2.baudCalls = [some 9600, some 115200] := by
  decide!

/-- Claim C19 fails on the code: after `init` with a callback and
`SetUARTBaudRate(200)`, the call `SetMode(MODE_NORMAL)` reads `baudRates` at
index 200, outside its eight entries. -/
theorem C19_baud_table_index_out_of_bounds :
    afterInit.2.1.autoBaud = true ∧
    (EBYTE.SetUARTBaudRate 200 afterInit.2.1)._UARTDataRate = 200 ∧
    (EBYTE.SetUARTBaudRate 200 afterInit.2.1).currentBaudRate ≠ 200 ∧
    baudRates.length = 8 ∧
    (EBYTE.SetMode .MODE_NORMAL (EBYTE.SetUARTBaudRate 200 afterInit.2.1)
      afterInit.2.2).2.baudCalls = [some 9600, some 115200, none] := by
  decide!

/-! ## Theorems: the RSSI byte of `GetStruct` -/

theorem World.arrive_pending (w : World) : w.arrive.pending = w.pending := by
  simp only [World.arrive, World.pending, List.append_assoc, ← List.map_append,
    List.takeWhile_append_dropWhile]

theorem World.delay_pending (ms : Nat) (w : World) : (w.delay ms).pending = w.pending :=
  World.arrive_pending { w with now := w.now + ms }

theorem World.availableBy_false {w : World} {D : Nat} (h : w.availableBy D = false) :
    w.rx = [] := by
  unfold World.availableBy at h
  split at h
  · exact absurd h (by decide)
  · assumption

/-- A byte that can be read by the time `D` is in the buffer once the clock
has reached `D`. -/
theorem World.delay_rx_of_availableBy {w : World} {D : Nat} (ms : Nat)
    (h : w.availableBy D = true) (hD : D ≤ w.now + ms) : (w.delay ms).rx ≠ [] := by
  unfold World.availableBy at h
  split at h
  · rename_i b rest hrx
    simp [World.delay, World.arrive, hrx]
  · rename_i hrx
    split at h
    · exact absurd h (by decide)
    · rename_i t b rest hwire
      have ht : t ≤ w.now + ms := Nat.le_trans (of_decide_eq_true h) hD
      simp [World.delay, World.arrive, hrx, hwire, List.takeWhile_cons, ht]

theorem World.delay_availableBy {w : World} {D : Nat} (ms : Nat)
    (h : w.availableBy D = true) : (w.delay ms).availableBy D = true := by
  unfold World.availableBy at h
  split at h
  · rename_i b rest hrx
    simp [World.availableBy, World.delay, World.arrive, hrx]
  · rename_i hrx
    split at h
    · exact absurd h (by decide)
    · rename_i t b rest hwire
      by_cases ht : t ≤ w.now + ms
      · simp [World.availableBy, World.delay, World.arrive, hrx, hwire, List.takeWhile_cons, ht]
      · simp [World.availableBy, World.delay, World.arrive, hrx, hwire, List.takeWhile_cons,
          List.dropWhile_cons, ht]
        exact of_decide_eq_true h

/-- While the clock has not passed `D`, a byte that cannot be read by the time
`D` is not in the buffer. -/
theorem World.delay_not_availableBy {w : World} {D : Nat} (ms : Nat)
    (h : w.availableBy D = false) (hD : w.now + ms ≤ D) :
    (w.delay ms).availableBy D = false := by
  unfold World.availableBy at h
  split at h
  · exact absurd h (by decide)
  · rename_i hrx
    split at h
    · rename_i hwire
      simp [World.availableBy, World.delay, World.arrive, hrx, hwire]
    · rename_i t b rest hwire
      have ht : ¬ t ≤ D := of_decide_eq_false h
      have ht2 : ¬ t ≤ w.now + ms := by omega
      simp [World.availableBy, World.delay, World.arrive, hrx, hwire, List.takeWhile_cons,
        List.dropWhile_cons, ht2]
      omega

namespace EBYTE

theorem GetStruct_poll_pending (start : Nat) :
    ∀ (fuel : Nat) (w : World), (GetStruct_poll start fuel w).pending = w.pending := by
  intro fuel
  induction fuel with
  | zero => intro w; rfl
  | succ n ih =>
    intro w
    unfold GetStruct_poll
    split_ifs
    · exact (ih w.spin).trans (World.delay_pending 1 w)
    · rfl

theorem CompleteTask_poll_pending (start timeout : Nat) :
    ∀ (fuel : Nat) (w : World), (CompleteTask_poll start timeout fuel w).pending = w.pending := by
  intro fuel
  induction fuel with
  | zero => intro w; rfl
  | succ n ih =>
    intro w
    unfold CompleteTask_poll
    split_ifs
    · rfl
    · exact (ih w.spin).trans (World.delay_pending 1 w)
    · rfl

theorem CompleteTask_pending (timeout : Nat) (d : EBYTE) (w : World) :
    (CompleteTask timeout d w).pending = w.pending := by
  unfold CompleteTask
  split_ifs
  · exact (World.delay_pending 20 _).trans (CompleteTask_poll_pending _ _ _ w)
  · exact (World.delay_pending 20 _).trans (World.delay_pending 1000 w)

/-- The wait for the RSSI byte ends with a byte in the buffer when one can be
read within 5 ms of its start. -/
theorem GetStruct_poll_captures (start : Nat) :
    ∀ (fuel : Nat) (w : World), start ≤ w.now → w.availableBy (start + 5) = true →
      (w.now ≤ start + 5 ∨ w.rx ≠ []) → 6 ≤ (w.now - start) + fuel →
      (GetStruct_poll start fuel w).rx ≠ [] := by
  intro fuel
  induction fuel with
  | zero =>
    intro w h1 _ h3 h4
    rcases h3 with h3 | h3
    · omega
    · exact h3
  | succ n ih =>
    intro w h1 h2 h3 h4
    unfold GetStruct_poll
    split_ifs with hc
    · simp only [Bool.and_eq_true, decide_eq_true_eq, World.millis] at hc
      apply ih w.spin
      · simp only [World.spin, World.delay_now]; omega
      · exact World.delay_availableBy 1 h2
      · by_cases hlt : w.now + 1 ≤ start + 5
        · left; simp only [World.spin, World.delay_now]; exact hlt
        · right; exact World.delay_rx_of_availableBy 1 h2 (by omega)
      · simp only [World.spin, World.delay_now]; omega
    · simp only [Bool.and_eq_true, decide_eq_true_eq, World.millis, World.available,
        not_and] at hc
      rcases h3 with h3 | h3
      · intro hrx
        exact hc (by omega) (by simp [hrx])
      · exact h3

/-- The wait for the RSSI byte ends with an empty buffer when no byte can be
read until its end, 6 ms after its start. -/
theorem GetStruct_poll_misses (start : Nat) :
    ∀ (fuel : Nat) (w : World), start ≤ w.now → w.now ≤ start + 6 →
      w.availableBy (start + 6) = false → (GetStruct_poll start fuel w).rx = [] := by
  intro fuel
  induction fuel with
  | zero => intro w _ _ h3; exact World.availableBy_false h3
  | succ n ih =>
    intro w h1 h2 h3
    unfold GetStruct_poll
    split_ifs with hc
    · simp only [Bool.and_eq_true, decide_eq_true_eq, World.millis] at hc
      apply ih w.spin
      · simp only [World.spin, World.delay_now]; omega
      · simp only [World.spin, World.delay_now]; omega
      · exact World.delay_not_availableBy 1 h3 (by omega)
    · exact World.availableBy_false h3

end EBYTE

namespace EBYTE

/-- The RSSI block of `GetStruct` when a byte can be read within 5 ms: the
flag is set, the data member gets the first pending byte, and that byte only
is taken from the transport. -/
theorem GetStruct_rssi_captures (d : EBYTE) (w : World) (he : d._EnableRSSIByte = true)
    (ha : w.availableBy (w.now + 5) = true) :
    (GetStruct_rssi d w).1.newRSSIdataAvailable = true ∧
    (w.pending.head?).map (fun b => b % 256) = some (GetStruct_rssi d w).1.RSSIdata ∧
    (GetStruct_rssi d w).2.pending = w.pending.tail := by
  have hne := GetStruct_poll_captures w.now 7 w (Nat.le_refl _) ha
    (Or.inl (Nat.le_add_right _ _)) (by omega)
  have hp := GetStruct_poll_pending w.now 7 w
  simp only [GetStruct_rssi, he, if_true, World.millis]
  cases hrx : (GetStruct_poll w.now 7 w).rx with
  | nil => exact absurd hrx hne
  | cons b rest =>
    have hav : (GetStruct_poll w.now 7 w).available ≥ 1 := by simp [World.available, hrx]
    have hpend : w.pending = b :: (rest ++ (GetStruct_poll w.now 7 w).wire.map Prod.snd) := by
      rw [← hp]; simp [World.pending, hrx]
    have hb : (((b : Int) % 256).toNat) = b % 256 := by omega
    simp only [hav, decide_True, if_true, World.read, hrx, hb]
    rw [hpend]
    exact ⟨trivial, rfl, rfl⟩

/-- The RSSI block of `GetStruct` when no byte can be read until the end of
the wait: the flag is clear, the data member and the transport are as
before. -/
theorem GetStruct_rssi_misses (d : EBYTE) (w : World) (he : d._EnableRSSIByte = true)
    (ha : w.availableBy (w.now + 6) = false) :
    (GetStruct_rssi d w).1.newRSSIdataAvailable = false ∧
    (GetStruct_rssi d w).1.RSSIdata = d.RSSIdata ∧
    (GetStruct_rssi d w).2.pending = w.pending := by
  have hnil := GetStruct_poll_misses w.now 7 w (Nat.le_refl _) (Nat.le_add_right _ _) ha
  have hp := GetStruct_poll_pending w.now 7 w
  have hav : ¬ (GetStruct_poll w.now 7 w).available ≥ 1 := by simp [World.available, hnil]
  simp only [GetStruct_rssi, he, if_true, World.millis, hav, decide_False, Bool.false_eq_true,
    if_false, hp, true_and]

end EBYTE

/-- Claim C15: after the payload read of `GetStruct`, (1) with the RSSI-byte
feature on and a byte readable within 5 ms, the flag is set, `RSSIdata` is
that byte and exactly that byte is taken from the transport; (2) with the
feature on and no byte readable until the wait ends, the flag is clear and
nothing is taken; (3) with the feature off, nothing is taken, `RSSIdata` is
unchanged and the flag is clear; (4) the bytes returned and the boolean
result are those of the payload read alone. -/
theorem C15_GetStruct_RSSI_capture (n : Nat) (d : EBYTE) (w : World) :
    (d._EnableRSSIByte = true →
      (w.readBytes n).2.availableBy ((w.readBytes n).2.now + 5) = true →
        (EBYTE.GetStruct n d w).2.2.1.newRSSIdataAvailable = true ∧
        ((w.readBytes n).2.pending.head?).map (fun b => b % 256)
          = some (EBYTE.GetStruct n d w).2.2.1.RSSIdata ∧
        (EBYTE.GetStruct n d w).2.2.2.pending = (w.readBytes n).2.pending.tail) ∧
    (d._EnableRSSIByte = true →
      (w.readBytes n).2.availableBy ((w.readBytes n).2.now + 6) = false →
        (EBYTE.GetStruct n d w).2.2.1.newRSSIdataAvailable = false ∧
        (EBYTE.GetStruct n d w).2.2.1.RSSIdata = d.RSSIdata ∧
        (EBYTE.GetStruct n d w).2.2.2.pending = (w.readBytes n).2.pending) ∧
    (d._EnableRSSIByte = false →
        (EBYTE.GetStruct n d w).2.2.1.newRSSIdataAvailable = false ∧
        (EBYTE.GetStruct n d w).2.2.1.RSSIdata = d.RSSIdata ∧
        (EBYTE.GetStruct n d w).2.2.2.pending = (w.readBytes n).2.pending) ∧
    (EBYTE.GetStruct n d w).2.1 = (w.readBytes n).1 ∧
    (EBYTE.GetStruct n d w).1 = decide ((w.readBytes n).1.length % 256 = n) := by
  refine ⟨?_, ?_, ?_, (EBYTE.GetStruct_result n d w).1, (EBYTE.GetStruct_result n d w).2⟩
  · intro he ha
    have h := EBYTE.GetStruct_rssi_captures
      { d with _buf := (w.readBytes n).1.length % 256, newRSSIdataAvailable := false }
      (w.readBytes n).2 he ha
    simp only [EBYTE.GetStruct, EBYTE.CompleteTask_pending]
    exact h
  · intro he ha
    have h := EBYTE.GetStruct_rssi_misses
      { d with _buf := (w.readBytes n).1.length % 256, newRSSIdataAvailable := false }
      (w.readBytes n).2 he ha
    simp only [EBYTE.GetStruct, EBYTE.CompleteTask_pending]
    exact h
  · intro he
    simp only [EBYTE.GetStruct, EBYTE.CompleteTask_pending, EBYTE.GetStruct_rssi, he,
      Bool.false_eq_true, if_false, and_self]

/-- Claim C15 on three inputs: a fifth byte arriving 3 ms after a four-byte
payload is captured; one arriving after 50 ms is not; with the feature off
nothing beyond the payload is read. -/
theorem C15_GetStruct_RSSI_capture_witness :
    ((EBYTE.GetStruct 4 sampleDriver rssiByteWorld).2.2.1.newRSSIdataAvailable = true ∧
      ((rssiByteWorld.readBytes 4).2.pending.head?).map (fun b => b % 256)
        = some (EBYTE.GetStruct 4 sampleDriver rssiByteWorld).2.2.1.RSSIdata ∧
      (EBYTE.GetStruct 4 sampleDriver rssiByteWorld).2.2.2.pending
        = (rssiByteWorld.readBytes 4).2.pending.tail) ∧
    ((EBYTE.GetStruct 4 sampleDriver lateByteWorld).2.2.1.newRSSIdataAvailable = false ∧
      (EBYTE.GetStruct 4 sampleDriver lateByteWorld).2.2.1.RSSIdata = sampleDriver.RSSIdata ∧
      (EBYTE.GetStruct 4 sampleDriver lateByteWorld).2.2.2.pending
        = (lateByteWorld.readBytes 4).2.pending) ∧
    ((EBYTE.GetStruct 4 noRSSIDriver rssiByteWorld).2.2.1.newRSSIdataAvailable = false ∧
      (EBYTE.GetStruct 4 noRSSIDriver rssiByteWorld).2.2.1.RSSIdata = noRSSIDriver.RSSIdata ∧
      (EBYTE.GetStruct 4 noRSSIDriver rssiByteWorld).2.2.2.pending
        = (rssiByteWorld.readBytes 4).2.pending) :=
  ⟨(C15_GetStruct_RSSI_capture 4 sampleDriver rssiByteWorld).1 (by decide) (by decide),
    (C15_GetStruct_RSSI_capture 4 sampleDriver lateByteWorld).2.1 (by decide) (by decide),
    (C15_GetStruct_RSSI_capture 4 noRSSIDriver rssiByteWorld).2.2.1 (by decide)⟩

/-- A run of `GetStruct` with a fifth byte arriving 3 ms after a four-byte
payload: the captured byte is 0x7A, the four payload bytes are returned and
the result is true. -/
theorem GetStruct_sample_run :
    (EBYTE.GetStruct 4 sampleDriver rssiByteWorld).1 = true ∧
    (EBYTE.GetStruct 4 sampleDriver rssiByteWorld).2.1 = [1, 2, 3, 4] ∧
    (EBYTE.GetStruct 4 sampleDriver rssiByteWorld).2.2.1.RSSIdata = 0x7A ∧
    (EBYTE.GetStruct 4 sampleDriver rssiByteWorld).2.2.2.pending = [] := by
  decide
